import Mathlib

/-!
Verification of the openaq-fastapi repository: a shallow embedding, in Lean, of
the query-parameter-to-SQL translation layer (routers/base.py,
routers/measurements.py, routers/averages.py) and of the batch ingestion
pipeline (ingest.py, ingest/fetch.py), together with theorems settling the
frozen claims about those parts.

Conventions of the embedding:
* Python `Optional[T]` fields become `Option`; Python `None` is `none`.
* Python truthiness (`if self.lon and self.lat`) is modelled explicitly:
  `None` and `0.0` (and the empty list) are falsy.
* SQL fragments are Lean `String`s, transcribed character for character from
  the source.
* Python text processed character-by-character (the ingestion COPY lines) is
  modelled as `List Char`.
* A raising Python function becomes an `Option`- or `Except`-valued function;
  `none` / `.error` marks the exception.
-/

/-! ### Paging validation (routers/base.py lines 312-322)

`Paging` declares `limit: int = Query(100, gt=0, le=10000)`,
`page: int = Query(1, gt=0, le=1000)`, `offset: int = Query(0, ge=0, le=10000)`
and a validator `check_offset` that replaces the client-supplied offset by
`limit * (page - 1)` and raises a 422 error when `offset + limit > 10000`.
Pydantic validates the three fields in declaration order and then runs the
validator; any failure surfaces as an HTTP 422 error
(`parameter_dependency_from_model` turns a `ValidationError` into
`HTTPException(422, ...)`, and `invalid` raises `HTTPException(422, ...)`
directly).  `.error` collapses both kinds of 422. -/

structure PagingOut where
  limit : Int
  page : Int
  offset : Int
deriving DecidableEq

def pagingValidate (limit page offset : Int) : Except String PagingOut :=
  if ¬ (0 < limit ∧ limit ≤ 10000) then .error "limit"
  else if ¬ (0 < page ∧ page ≤ 1000) then .error "page"
  else if ¬ (0 ≤ offset ∧ offset ≤ 10000) then .error "offset"
  else if limit * (page - 1) + limit > 10000 then
    .error "limit, offset: offset + limit must be < 10000"
  else .ok ⟨ limit, page, limit * (page - 1)⟩

/-- C10: every `Paging` input accepted by validation gets
`offset = limit * (page - 1)` regardless of the client-supplied offset, the
validator rejects with a 422 whenever `limit * (page - 1) + limit` exceeds
10000, and consequently every accepted request satisfies
`offset + limit ≤ 10000`. -/
theorem paging_check_offset_props (l p o : Int) :
    (∀ out : PagingOut, pagingValidate l p o = .ok out →
      out.offset = l * (p - 1) ∧ out.offset + out.limit ≤ 10000)
    ∧ (l * (p - 1) + l > 10000 → ∃ msg, pagingValidate l p o = .error msg) := by
  constructor
  · intro out hok
    unfold pagingValidate at hok
    split_ifs at hok with h1 h2 h3 h4
    simp only [Except.ok.injEq] at hok
    subst hok
    exact ⟨ rfl, by simpa using le_of_not_lt h4⟩
  · intro hbig
    unfold pagingValidate
    split_ifs with h1 h2 h3
    all_goals exact ⟨ _, rfl⟩

/-- Witness for C10: at `limit = 100, page = 101` the computed offset plus
limit is 10100 > 10000 and validation errors out; at `limit = 50, page = 2,
offset = 7` the request is accepted with offset `50 = 50 * (2 - 1)`. -/
theorem paging_check_offset_props_witness :
    (∃ msg, pagingValidate 100 101 0 = .error msg)
    ∧ ((50 : Int) * (2 - 1) = 50 ∧ (50 : Int) + 50 ≤ 10000) := by
  constructor
  · exact (paging_check_offset_props 100 101 0).2 (by decide)
  · have h := (paging_check_offset_props 50 2 7).1 ⟨ 50, 2, 50⟩ rfl
    exact ⟨ h.1, h.2⟩

/-! ### Temporal dispatch in averages_get (routers/averages.py lines 86-115)

The handler sets `count_q = 'value_count'`, `sum_q = 'value_sum'`, initializes
`temporal_col = temporal_q = temporal_order = f"{temporal}::date"` and then
branches on `temporal`, overriding table/column choices per branch; the final
`else` raises a bare `Exception` (modelled as `none`). -/

structure TemporalPlan where
  table : String
  temporal_col : String
  temporal_order : String
  temporal_q : String
  count_q : String
  sum_q : String
deriving DecidableEq

def averagesTemporalPlan (temporal : String) : Option TemporalPlan :=
  let count_q := "value_count"
  let sum_q := "value_sum"
  let tdate := temporal ++ "::date"
  if temporal = "day" then
    some ⟨ "sensors_daily", tdate, tdate, tdate, count_q, sum_q⟩
  else if temporal = "month" then
    some ⟨ "sensors_monthly", tdate, tdate, tdate, count_q, sum_q⟩
  else if temporal = "year" then
    some ⟨ "sensors_yearly", tdate, tdate, tdate, count_q, sum_q⟩
  else if temporal = "moy" then
    some ⟨ "sensors_monthly", "to_char(month, 'Mon')", "to_char(month, 'MM')",
           "month", count_q, sum_q⟩
  else if temporal = "dow" then
    some ⟨ "sensors_daily", "to_char(day, 'Dy')", "to_char(day, 'ID')",
           "day", count_q, sum_q⟩
  else if temporal = "hour" then
    some ⟨ "measurements", "date_trunc('hour', datetime)",
           "date_trunc('hour', datetime)", "datetime",
           "1::int as value_count", "value as value_sum"⟩
  else none

/-- C5: `averages_get` picks exactly one table/column combination per
`temporal` value: `day` uses `sensors_daily`, `month` uses `sensors_monthly`,
`year` uses `sensors_yearly`, `moy` uses `sensors_monthly` ordered by month
number and displayed as month name, `dow` uses `sensors_daily` ordered by ISO
day-of-week and displayed as day name, and `hour` uses the `measurements`
table with `date_trunc('hour', datetime)`; any other temporal value raises an
exception instead of building a query. -/
theorem averages_temporal_dispatch :
    averagesTemporalPlan "day"
      = some ⟨ "sensors_daily", "day::date", "day::date", "day::date",
               "value_count", "value_sum"⟩
    ∧ averagesTemporalPlan "month"
      = some ⟨ "sensors_monthly", "month::date", "month::date", "month::date",
               "value_count", "value_sum"⟩
    ∧ averagesTemporalPlan "year"
      = some ⟨ "sensors_yearly", "year::date", "year::date", "year::date",
               "value_count", "value_sum"⟩
    ∧ averagesTemporalPlan "moy"
      = some ⟨ "sensors_monthly", "to_char(month, 'Mon')", "to_char(month, 'MM')",
               "month", "value_count", "value_sum"⟩
    ∧ averagesTemporalPlan "dow"
      = some ⟨ "sensors_daily", "to_char(day, 'Dy')", "to_char(day, 'ID')",
               "day", "value_count", "value_sum"⟩
    ∧ averagesTemporalPlan "hour"
      = some ⟨ "measurements", "date_trunc('hour', datetime)",
               "date_trunc('hour', datetime)", "datetime",
               "1::int as value_count", "value as value_sum"⟩
    ∧ ∀ t : String, t ∉ ["day", "month", "year", "moy", "dow", "hour"] →
        averagesTemporalPlan t = none := by
  refine ⟨ rfl, rfl, rfl, rfl, rfl, rfl, ?_⟩
  intro t ht
  have h1 : ¬ t = "day" := fun h => ht (by simp [h])
  have h2 : ¬ t = "month" := fun h => ht (by simp [h])
  have h3 : ¬ t = "year" := fun h => ht (by simp [h])
  have h4 : ¬ t = "moy" := fun h => ht (by simp [h])
  have h5 : ¬ t = "dow" := fun h => ht (by simp [h])
  have h6 : ¬ t = "hour" := fun h => ht (by simp [h])
  simp [averagesTemporalPlan, h1, h2, h3, h4, h5, h6]

/-- Witness for C5: the temporal value `"week"` is outside the six handled
values and the dispatcher raises (returns `none`) on it. -/
theorem averages_temporal_dispatch_witness :
    averagesTemporalPlan "week" = none :=
  averages_temporal_dispatch.2.2.2.2.2.2 "week" (by decide)

/-! ### Filter models and their where() methods

routers/base.py defines the filter models.  `BaseWhere.where` (lines 122-128)
emits `" AND {name} = ANY(:{name}) "` when the field named after the
(decamelized) class is not `None` and `""` otherwise; `Project`, `Location`,
`Geo` and `Measurands` override it.  routers/measurements.py (lines 89-114)
defines `Measurements.where`.  Python `Optional[float]` values are modelled as
`Option ℚ`; a `location` list element that is an `int` is `Sum.inl`, a `str`
element is `Sum.inr`. -/

/-- Python truthiness of an `Optional[float]`: `None` and `0.0` are falsy. -/
def floatTruthy (v : Option ℚ) : Bool :=
  match v with
  | none => false
  | some q => q ≠ 0

/-- `BaseWhere.where` (base.py lines 122-128): `name` is the decamelized class
name, `present` is `getattr(self, name) is not None`. -/
def baseWhereClause (name : String) (present : Bool) : String :=
  if present then " AND " ++ name ++ " = ANY(:" ++ name ++ ") " else ""

/-- `SourceName` inherits `BaseWhere.where` with field `source_name`. -/
def sourceNameWhere (source_name : Option (List String)) : String :=
  baseWhereClause "source_name" source_name.isSome

/-- `Project.where` (base.py lines 195-199): `if self.project and
len(self.project) > 0` — an empty list is falsy, so it yields no clause. -/
def projectWhere (project : Option (List Int)) : String :=
  match project with
  | some l => if l.length > 0 then " AND groups_id = ANY(:project) " else ""
  | none => ""

/-- `Location.where` (base.py lines 224-232): an id clause when every element
of the list is an `int`, a name clause for any other list, nothing for
`None`. -/
def locationWhere (location : Option (List (Sum Int String))) : String :=
  match location with
  | some l =>
      if l.all (fun x => x.isLeft) then " AND id = ANY(:location) "
      else " AND name = ANY(:location) "
  | none => ""

/-- `Geo.where` (base.py lines 283-286): tests `is not None` on both lat and
lon. -/
def geoWhere (lat lon : Option ℚ) : String :=
  if lat.isSome && lon.isSome then
    " AND st_dwithin(st_makepoint(:lon, :lat)::geography, geog, :radius) "
  else ""

/-- `Measurands.where` (base.py lines 293-297). -/
def measurandsWhere (measurands : Option (List String)) : String :=
  if measurands.isSome then
    " AND parameters @> ANY(jsonb_array(:measurands_param::jsonb)) "
  else ""

/-- The fields of `Measurements` (measurements.py lines 81-114) that its
`where()` reacts to.  The model mixes in further fields (paging, dates,
`has_geo`, `coordinates`, `radius`, `order_by`, `sort`, `project`) that fall
through every branch of the `if/elif` chain and contribute no clause, so they
are omitted here. -/
structure MeasurementsQ where
  lat : Option ℚ
  lon : Option ℚ
  location : Option (List (Sum Int String))
  parameter : Option (List String)
  unit : Option (List String)
  isMobile : Option Bool
  country : Option (List String)
  city : Option (List String)
deriving DecidableEq

/-- Modelled from the spec: `where_geo` is defined in
`openaq_fastapi/models/queries.py`, which is not among the repository's source
files (only its caller `Measurements.where` is).  The spec describes exactly
one geo-radius clause in the fragment, and that clause is already produced by
the `if self.lon and self.lat` branch, so `where_geo` is modelled as
contributing no clause (its `None` result is dropped by
`list(filter(None, wheres))`). -/
def whereGeoModelled (_m : MeasurementsQ) : Option String := none

/-- `if v is not None: wheres.append(clause)` as a list chunk. -/
def presentClause (b : Bool) (s : String) : List String :=
  if b then [s] else []

/-- The `location` branch pair of `Measurements.where`. -/
def locationChunk (loc : Option (List (Sum Int String))) : List String :=
  match loc with
  | some l =>
      [if l.all (fun x => x.isLeft) then " sensor_nodes_id = ANY(:location) "
       else " site_name = ANY(:location) "]
  | none => []

/-- The clause list `wheres` built by `Measurements.where` in the order the
appends happen: the truthiness-guarded geo clause first, then the field loop
(pydantic iterates inherited fields in reverse-MRO collection order, so
`parameter`, `unit`, `country`, `city` precede `location` and `isMobile`),
then the `where_geo()` result. -/
def measurementsClauses (m : MeasurementsQ) : List String :=
  presentClause (floatTruthy m.lon && floatTruthy m.lat)
    " st_dwithin(st_makepoint(:lon, :lat)::geography, b.geog, :radius) "
  ++ presentClause m.parameter.isSome " measurand = ANY(:measurand) "
  ++ presentClause m.unit.isSome " units = ANY(:unit) "
  ++ presentClause m.country.isSome "country = ANY(:country)"
  ++ presentClause m.city.isSome "city = ANY(:city)"
  ++ locationChunk m.location
  ++ presentClause m.isMobile.isSome " ismobile = :mobile "
  ++ (match whereGeoModelled m with | some c => [c] | none => [])

/-- `Measurements.where`: drop falsy entries, join with `" AND "`, default
`" TRUE "`. -/
def measurementsWhere (m : MeasurementsQ) : String :=
  let wheres := (measurementsClauses m).filter (fun s => s ≠ "")
  if wheres.length > 0 then String.intercalate " AND " wheres else " TRUE "

/-- The shape on which `Measurements.where` actually branches: lat/lon enter
through Python truthiness, every other filter through `is not None`, and
`location` through the all-ints test. -/
structure MeasShape where
  geoOn : Bool
  loc : Option Bool
  par : Bool
  unit : Bool
  mob : Bool
  country : Bool
  city : Bool
deriving DecidableEq

def measShapeTruthy (m : MeasurementsQ) : MeasShape :=
  ⟨ floatTruthy m.lon && floatTruthy m.lat,
    m.location.map (fun l => l.all (fun x => x.isLeft)),
    m.parameter.isSome, m.unit.isSome, m.isMobile.isSome,
    m.country.isSome, m.city.isSome⟩

/-- The shape exactly as the claim words it: "both lat and lon set or not",
i.e. `is not None`, without the truthiness refinement. -/
def measShapeClaim (m : MeasurementsQ) : MeasShape :=
  ⟨ m.lat.isSome && m.lon.isSome,
    m.location.map (fun l => l.all (fun x => x.isLeft)),
    m.parameter.isSome, m.unit.isSome, m.isMobile.isSome,
    m.country.isSome, m.city.isSome⟩

/-- Counterexample to C1 as stated: two `Measurements` inputs with identical
claim-shape (lat and lon both set, every other field `None`) whose `where()`
fragments differ character-for-character, because `if self.lon and self.lat`
uses Python truthiness and `lon = 0.0` is falsy. -/
theorem measurements_where_value_shape_counterexample :
    measShapeClaim ⟨ some 10, some 0, none, none, none, none, none, none⟩
      = measShapeClaim ⟨ some 10, some 5, none, none, none, none, none, none⟩
    ∧ measurementsWhere ⟨ some 10, some 0, none, none, none, none, none, none⟩
      ≠ measurementsWhere ⟨ some 10, some 5, none, none, none, none, none, none⟩ := by
  constructor
  · rfl
  · decide

theorem locationChunk_shape (a b : Option (List (Sum Int String)))
    (h : a.map (fun l => l.all (fun x => x.isLeft))
       = b.map (fun l => l.all (fun x => x.isLeft))) :
    locationChunk a = locationChunk b := by
  cases a with
  | none => cases b with
    | none => rfl
    | some lb => simp at h
  | some la => cases b with
    | none => simp at h
    | some lb =>
        have h' : la.all (fun x => x.isLeft) = lb.all (fun x => x.isLeft) := by
          simpa using h
        simp only [locationChunk, h']

/-- C1, amended: every filter fragment is a function of the shape of its
fields alone — for `BaseWhere` subclasses presence (`is not None`), for
`Project` additionally non-emptiness of the list (Python truthiness), for
`Location` the all-ints test, for `Geo` presence of both lat and lon, and
for `Measurements` truthiness (set and nonzero) of lat and lon — and each
fragment is drawn from a fixed finite set of constant strings, so
user-supplied values reach the query only through the named placeholders. -/
theorem where_fragments_shape_determined :
    (∀ a b : Option (List String), a.isSome = b.isSome →
        sourceNameWhere a = sourceNameWhere b)
    ∧ (∀ a : Option (List String),
        sourceNameWhere a ∈ ["", " AND source_name = ANY(:source_name) "])
    ∧ (∀ a b : Option (List Int),
        (a.map (fun l => decide (l.length > 0)))
          = (b.map (fun l => decide (l.length > 0))) →
        projectWhere a = projectWhere b)
    ∧ (∀ a : Option (List Int),
        projectWhere a ∈ ["", " AND groups_id = ANY(:project) "])
    ∧ (∀ a b : Option (List (Sum Int String)),
        (a.map (fun l => l.all (fun x => x.isLeft)))
          = (b.map (fun l => l.all (fun x => x.isLeft))) →
        locationWhere a = locationWhere b)
    ∧ (∀ a : Option (List (Sum Int String)),
        locationWhere a
          ∈ ["", " AND id = ANY(:location) ", " AND name = ANY(:location) "])
    ∧ (∀ la lo la2 lo2 : Option ℚ, la.isSome = la2.isSome →
        lo.isSome = lo2.isSome → geoWhere la lo = geoWhere la2 lo2)
    ∧ (∀ la lo : Option ℚ,
        geoWhere la lo
          ∈ ["",
             " AND st_dwithin(st_makepoint(:lon, :lat)::geography, geog, :radius) "])
    ∧ (∀ a b : Option (List String), a.isSome = b.isSome →
        measurandsWhere a = measurandsWhere b)
    ∧ (∀ a : Option (List String),
        measurandsWhere a
          ∈ ["", " AND parameters @> ANY(jsonb_array(:measurands_param::jsonb)) "])
    ∧ (∀ m m' : MeasurementsQ, measShapeTruthy m = measShapeTruthy m' →
        measurementsWhere m = measurementsWhere m') := by
  refine ⟨ ?_, ?_, ?_, ?_, ?_, ?_, ?_, ?_, ?_, ?_, ?_⟩
  · intro a b h
    simp only [sourceNameWhere, baseWhereClause, h]
  · intro a
    unfold sourceNameWhere baseWhereClause
    split <;> simp
  · intro a b h
    cases a with
    | none => cases b with
      | none => rfl
      | some lb => simp at h
    | some la => cases b with
      | none => simp at h
      | some lb =>
          have h' : la.length > 0 ↔ lb.length > 0 := by simpa using h
          simp [projectWhere, h']
  · intro a
    rcases a with _ | l
    · simp [projectWhere]
    · by_cases h : l.length > 0 <;> simp [projectWhere, h]
  · intro a b h
    cases a with
    | none => cases b with
      | none => rfl
      | some lb => simp at h
    | some la => cases b with
      | none => simp at h
      | some lb =>
          have h' : la.all (fun x => x.isLeft) = lb.all (fun x => x.isLeft) := by
            simpa using h
          simp only [locationWhere, h']
  · intro a
    rcases a with _ | l
    · simp [locationWhere]
    · by_cases h : l.all (fun x => x.isLeft) <;> simp [locationWhere, h]
  · intro la lo la2 lo2 h1 h2
    simp only [geoWhere, h1, h2]
  · intro la lo
    unfold geoWhere
    split <;> simp
  · intro a b h
    simp only [measurandsWhere, h]
  · intro a
    unfold measurandsWhere
    split <;> simp
  · intro m m' h
    simp only [measShapeTruthy, MeasShape.mk.injEq] at h
    obtain ⟨ h1, h2, h3, h4, h5, h6, h7⟩ := h
    unfold measurementsWhere measurementsClauses
    simp only [whereGeoModelled]
    rw [h1, h3, h4, h6, h7, h5, locationChunk_shape _ _ h2]

/-- Witness for C1: concrete instantiations of the shape-determinism
conjuncts — two distinct country-free `source_name` lists give the same
fragment, and two `Measurements` inputs with distinct nonzero coordinates
give the same fragment. -/
theorem where_fragments_shape_determined_witness :
    sourceNameWhere (some ["us-embassy"]) = sourceNameWhere (some ["purpleair"])
    ∧ measurementsWhere ⟨ some 10, some 5, none, none, none, none, none, none⟩
      = measurementsWhere ⟨ some 20, some 7, none, none, none, none, none, none⟩ := by
  constructor
  · exact where_fragments_shape_determined.1 _ _ rfl
  · exact where_fragments_shape_determined.2.2.2.2.2.2.2.2.2.2 _ _ rfl

/-- The clause list as the (amended) claim describes it: exactly one clause
per active filter, in the order the code appends them. -/
def measurementsSpecClauses (m : MeasurementsQ) : List String :=
  (if floatTruthy m.lon && floatTruthy m.lat then
     [" st_dwithin(st_makepoint(:lon, :lat)::geography, b.geog, :radius) "]
   else [])
  ++ (if m.parameter.isSome then [" measurand = ANY(:measurand) "] else [])
  ++ (if m.unit.isSome then [" units = ANY(:unit) "] else [])
  ++ (if m.country.isSome then ["country = ANY(:country)"] else [])
  ++ (if m.city.isSome then ["city = ANY(:city)"] else [])
  ++ (match m.location with
      | some l =>
          [if l.all (fun x => x.isLeft) then " sensor_nodes_id = ANY(:location) "
           else " site_name = ANY(:location) "]
      | none => [])
  ++ (if m.isMobile.isSome then [" ismobile = :mobile "] else [])

theorem filter_presentClause (b : Bool) (s : String) (hs : s ≠ "") :
    (presentClause b s).filter (fun x => x ≠ "") = presentClause b s := by
  unfold presentClause
  split <;> simp [hs]

theorem filter_locationChunk (loc : Option (List (Sum Int String))) :
    (locationChunk loc).filter (fun x => x ≠ "") = locationChunk loc := by
  unfold locationChunk
  rcases loc with _ | l
  · simp
  · by_cases h : l.all (fun x => x.isLeft) <;> simp [h]

theorem measurementsClauses_filter (m : MeasurementsQ) :
    (measurementsClauses m).filter (fun s => s ≠ "") = measurementsSpecClauses m := by
  unfold measurementsClauses measurementsSpecClauses
  simp only [whereGeoModelled, List.append_nil, List.filter_append,
    filter_locationChunk]
  rw [filter_presentClause _ _ (by decide), filter_presentClause _ _ (by decide),
    filter_presentClause _ _ (by decide), filter_presentClause _ _ (by decide),
    filter_presentClause _ _ (by decide), filter_presentClause _ _ (by decide)]
  simp only [presentClause, locationChunk]

/-- C6, amended: `Measurements.where()` returns the `" AND "`-join of exactly
one clause per active filter — the geo-radius clause when both lat and lon
are set and truthy (nonzero), the id-based location clause when every element
of `location` is an int and the site_name clause for any other list, an
equality-to-ANY clause each for parameter, unit, country and city when set,
and a plain equality clause ` ismobile = :mobile ` when isMobile is set — and
returns `" TRUE "` when no filter is active, so the fragment is always a
syntactically valid WHERE condition. -/
theorem measurements_where_conjunction (m : MeasurementsQ) :
    (measurementsSpecClauses m = [] → measurementsWhere m = " TRUE ")
    ∧ (measurementsSpecClauses m ≠ [] →
        measurementsWhere m
          = String.intercalate " AND " (measurementsSpecClauses m)) := by
  have hf := measurementsClauses_filter m
  constructor
  · intro h
    unfold measurementsWhere
    rw [hf, h]
    rfl
  · intro h
    unfold measurementsWhere
    rw [hf]
    have hl : (measurementsSpecClauses m).length > 0 := List.length_pos.mpr h
    simp [hl]

/-- Witness for C6: with only `parameter` active the fragment is that
single clause, and with no active filter it is `" TRUE "`. -/
theorem measurements_where_conjunction_witness :
    measurementsWhere ⟨ none, none, none, some ["pm25"], none, none, none, none⟩
      = String.intercalate " AND "
          (measurementsSpecClauses
            ⟨ none, none, none, some ["pm25"], none, none, none, none⟩)
    ∧ measurementsWhere ⟨ none, none, none, none, none, none, none, none⟩
      = " TRUE " := by
  constructor
  · exact (measurements_where_conjunction _).2 (by decide)
  · exact (measurements_where_conjunction _).1 rfl

/-- Counterexample to C6 as stated: with `lat = 0.0` and `lon = 7.0` both lat
and lon are set, yet the fragment contains no geo-radius clause at all — it is
`" TRUE "` — because `if self.lon and self.lat` treats `0.0` as falsy. -/
theorem measurements_where_setgeo_counterexample :
    ((⟨ some 0, some 7, none, none, none, none, none, none⟩ : MeasurementsQ).lat.isSome
      && (⟨ some 0, some 7, none, none, none, none, none, none⟩ : MeasurementsQ).lon.isSome)
      = true
    ∧ measurementsWhere ⟨ some 0, some 7, none, none, none, none, none, none⟩
      = " TRUE " := by
  constructor
  · rfl
  · decide

/-! ### The time-windowed paging loop of measurements_get
(routers/measurements.py lines 219-327)

Timestamps are seconds as `Int`; `timedelta(days=1)` is 86400 seconds (the
datetimes are timezone-aware, so the arithmetic is absolute).  `Sort` is a
`str` enum with members `asc`, `desc`, `ASC`, `DESC`; the code compares with
`m.sort == "asc"` / `== "desc"`, which only the lowercase members satisfy.
The per-iteration row count returned by the database is an oracle function of
the current window. -/

inductive PgSort
  | asc
  | desc
  | uASC
  | uDESC
deriving DecidableEq

structure LoopState where
  rc : Nat
  rangestart : Int
  rangeend : Int
deriving DecidableEq

def dayDelta : Int := 86400

/-- Initial window (lines 231-237): `if m.sort == "asc"` picks the ascending
start, anything else (including `"ASC"` and `"DESC"`) the descending start. -/
def loopInit (sort : PgSort) (date_from date_to : Int) : LoopState :=
  if sort = PgSort.asc then
    ⟨ 0, date_from, min (date_from + dayDelta) date_to⟩
  else
    ⟨ 0, max (date_to - dayDelta) date_from, date_to⟩

/-- The `while` condition (line 243):
`rc < m.limit and rangestart >= date_from and rangeend <= date_to`. -/
def loopGuard (limit : Nat) (date_from date_to : Int) (s : LoopState) : Bool :=
  s.rc < limit && date_from ≤ s.rangestart && s.rangeend ≤ date_to

/-- One loop body (lines 244-327): fetch rows for the current window
(`rc = rc + len(rows)`), then slide both bounds by one day — down when
`m.sort == "desc"`, up otherwise. -/
def loopStep (sort : PgSort) (oracle : Int → Int → Nat) (s : LoopState) :
    LoopState :=
  let rc := s.rc + oracle s.rangestart s.rangeend
  if sort = PgSort.desc then
    ⟨ rc, s.rangestart - dayDelta, s.rangeend - dayDelta⟩
  else
    ⟨ rc, s.rangestart + dayDelta, s.rangeend + dayDelta⟩

/-- Fuel-bounded runner for the while loop; `none` means the fuel ran out
before the guard failed. -/
def loopRun (sort : PgSort) (limit : Nat) (date_from date_to : Int)
    (oracle : Int → Int → Nat) : Nat → LoopState → Option LoopState
  | 0, _ => none
  | n + 1, s =>
      if loopGuard limit date_from date_to s then
        loopRun sort limit date_from date_to oracle n (loopStep sort oracle s)
      else some s

theorem loopRun_term_of_inc (sort : PgSort) (limit : Nat)
    (date_from date_to : Int) (oracle : Int → Int → Nat)
    (hs : sort ≠ PgSort.desc) :
    ∀ (n : Nat) (s : LoopState),
      ((date_to - s.rangeend) / dayDelta + 1).toNat ≤ n →
      (loopRun sort limit date_from date_to oracle (n + 1) s).isSome = true := by
  intro n
  induction n with
  | zero =>
      intro s hμ
      have hguard : loopGuard limit date_from date_to s = false := by
        by_contra hgc
        have hg : loopGuard limit date_from date_to s = true :=
          eq_true_of_ne_false hgc
        simp only [loopGuard, Bool.and_eq_true, decide_eq_true_eq] at hg
        have h0 : 0 ≤ (date_to - s.rangeend) / dayDelta :=
          Int.ediv_nonneg (by linarith [hg.2]) (by norm_num [dayDelta])
        omega
      unfold loopRun
      rw [hguard]
      simp
  | succ n ih =>
      intro s hμ
      unfold loopRun
      by_cases hg : loopGuard limit date_from date_to s = true
      · rw [if_pos hg]
        simp only [loopGuard, Bool.and_eq_true, decide_eq_true_eq] at hg
        have hstep : (loopStep sort oracle s).rangeend = s.rangeend + dayDelta := by
          simp [loopStep, hs]
        apply ih
        rw [hstep]
        have harith : (date_to - (s.rangeend + dayDelta)) / dayDelta
            = (date_to - s.rangeend) / dayDelta - 1 := by
          have hrw : date_to - (s.rangeend + dayDelta)
              = (date_to - s.rangeend) + (-1) * dayDelta := by ring
          rw [hrw, Int.add_mul_ediv_right _ _ (by norm_num [dayDelta])]
          ring
        rw [harith]
        have h0 : 0 ≤ (date_to - s.rangeend) / dayDelta :=
          Int.ediv_nonneg (by linarith [hg.2]) (by norm_num [dayDelta])
        omega
      · rw [if_neg hg]
        simp

theorem loopRun_term_of_desc (limit : Nat)
    (date_from date_to : Int) (oracle : Int → Int → Nat) :
    ∀ (n : Nat) (s : LoopState),
      ((s.rangestart - date_from) / dayDelta + 1).toNat ≤ n →
      (loopRun PgSort.desc limit date_from date_to oracle (n + 1) s).isSome
        = true := by
  intro n
  induction n with
  | zero =>
      intro s hμ
      have hguard : loopGuard limit date_from date_to s = false := by
        by_contra hgc
        have hg : loopGuard limit date_from date_to s = true :=
          eq_true_of_ne_false hgc
        simp only [loopGuard, Bool.and_eq_true, decide_eq_true_eq] at hg
        have h0 : 0 ≤ (s.rangestart - date_from) / dayDelta :=
          Int.ediv_nonneg (by linarith [hg.1.2]) (by norm_num [dayDelta])
        omega
      unfold loopRun
      rw [hguard]
      simp
  | succ n ih =>
      intro s hμ
      unfold loopRun
      by_cases hg : loopGuard limit date_from date_to s = true
      · rw [if_pos hg]
        simp only [loopGuard, Bool.and_eq_true, decide_eq_true_eq] at hg
        have hstep : (loopStep PgSort.desc oracle s).rangestart
            = s.rangestart - dayDelta := by
          simp [loopStep]
        apply ih
        rw [hstep]
        have harith : (s.rangestart - dayDelta - date_from) / dayDelta
            = (s.rangestart - date_from) / dayDelta - 1 := by
          have hrw : s.rangestart - dayDelta - date_from
              = (s.rangestart - date_from) + (-1) * dayDelta := by ring
          rw [hrw, Int.add_mul_ediv_right _ _ (by norm_num [dayDelta])]
          ring
        rw [harith]
        have h0 : 0 ≤ (s.rangestart - date_from) / dayDelta :=
          Int.ediv_nonneg (by linarith [hg.1.2]) (by norm_num [dayDelta])
        omega
      · rw [if_neg hg]
        simp

/-- C4: the paging loop terminates for every bounded range `date_from ≤
date_to`, whatever rows the database returns: fuel
`((date_to - date_from) / 86400).toNat + 2` always suffices.  Each iteration
moves both window bounds by exactly one day — down when `sort` is (lowercase)
`desc`, up otherwise — and the loop guard fails exactly when the accumulated
row count reaches the limit or the window leaves the interval. -/
theorem measurements_paging_loop_terminates (sort : PgSort) (limit : Nat)
    (date_from date_to : Int) (oracle : Int → Int → Nat)
    (h : date_from ≤ date_to) :
    (loopRun sort limit date_from date_to oracle
        (((date_to - date_from) / dayDelta).toNat + 2)
        (loopInit sort date_from date_to)).isSome = true
    ∧ (∀ s : LoopState, sort = PgSort.desc →
        (loopStep sort oracle s).rangestart = s.rangestart - 86400
        ∧ (loopStep sort oracle s).rangeend = s.rangeend - 86400)
    ∧ (∀ s : LoopState, sort ≠ PgSort.desc →
        (loopStep sort oracle s).rangestart = s.rangestart + 86400
        ∧ (loopStep sort oracle s).rangeend = s.rangeend + 86400)
    ∧ (∀ s : LoopState, loopGuard limit date_from date_to s = false ↔
        (limit ≤ s.rc ∨ s.rangestart < date_from ∨ date_to < s.rangeend)) := by
  have hQ : 0 ≤ (date_to - date_from) / dayDelta :=
    Int.ediv_nonneg (by linarith) (by norm_num [dayDelta])
  refine ⟨ ?_, ?_, ?_, ?_⟩
  · show (loopRun sort limit date_from date_to oracle
        ((((date_to - date_from) / dayDelta).toNat + 1) + 1)
        (loopInit sort date_from date_to)).isSome = true
    by_cases hdesc : sort = PgSort.desc
    · subst hdesc
      apply loopRun_term_of_desc
      have hrs : (loopInit PgSort.desc date_from date_to).rangestart
          = max (date_to - dayDelta) date_from := by
        simp [loopInit]
      rw [hrs]
      have hb : max (date_to - dayDelta) date_from - date_from
          ≤ date_to - date_from := by
        rcases le_total (date_to - dayDelta) date_from with hc | hc
        · rw [max_eq_right hc]
          linarith
        · rw [max_eq_left hc]
          have hd : (0 : Int) < dayDelta := by norm_num [dayDelta]
          linarith
      have hdiv : (max (date_to - dayDelta) date_from - date_from) / dayDelta
          ≤ (date_to - date_from) / dayDelta :=
        Int.ediv_le_ediv (by norm_num [dayDelta]) hb
      omega
    · apply loopRun_term_of_inc _ _ _ _ _ hdesc
      by_cases hasc : sort = PgSort.asc
      · subst hasc
        have hre : (loopInit PgSort.asc date_from date_to).rangeend
            = min (date_from + dayDelta) date_to := by
          simp [loopInit]
        rw [hre]
        have hb : date_to - min (date_from + dayDelta) date_to
            ≤ date_to - date_from := by
          have h1 : date_from ≤ min (date_from + dayDelta) date_to := by
            apply le_min _ h
            have hd : (0 : Int) < dayDelta := by norm_num [dayDelta]
            linarith
          linarith
        have hdiv : (date_to - min (date_from + dayDelta) date_to) / dayDelta
            ≤ (date_to - date_from) / dayDelta :=
          Int.ediv_le_ediv (by norm_num [dayDelta]) hb
        omega
      · have hre : (loopInit sort date_from date_to).rangeend = date_to := by
          simp [loopInit, hasc]
        rw [hre]
        simp only [sub_self]
        rw [Int.zero_ediv]
        omega
  · intro s hdesc
    subst hdesc
    constructor <;> simp [loopStep, dayDelta]
  · intro s hdesc
    constructor <;> simp [loopStep, hdesc, dayDelta]
  · intro s
    simp only [loopGuard, Bool.and_eq_false_iff]
    constructor
    · intro hf
      rcases hf with (hf | hf) | hf
      · left
        simpa using hf
      · right
        left
        simpa using hf
      · right
        right
        simpa using hf
    · intro hf
      rcases hf with hf | hf | hf
      · left
        left
        simpa using hf
      · left
        right
        simpa using hf
      · right
        simpa using hf

/-- Witness for C4: a two-day ascending range with a database that returns no
rows terminates within the computed fuel, and the concrete step moves the
window up by one day. -/
theorem measurements_paging_loop_terminates_witness :
    (loopRun PgSort.asc 10 0 172800 (fun _ _ => 0)
        (((172800 - 0 : Int) / dayDelta).toNat + 2)
        (loopInit PgSort.asc 0 172800)).isSome = true
    ∧ (loopStep PgSort.asc (fun _ _ => 0) ⟨ 0, 0, 86400⟩).rangeend
        = 86400 + 86400 := by
  constructor
  · exact (measurements_paging_loop_terminates PgSort.asc 10 0 172800
      (fun _ _ => 0) (by norm_num)).1
  · exact ((measurements_paging_loop_terminates PgSort.asc 10 0 172800
      (fun _ _ => 0) (by norm_num)).2.2.1 ⟨ 0, 0, 86400⟩ (by decide)).2

/-! ### The fetch cache key builder (routers/base.py lines 746-789)

`dbkey(m, f, query, args)` returns
`hash(f"{query}{orjson.dumps(args, option=orjson.OPT_OMIT_MICROSECONDS, default=default).decode()}")`
where `default(obj) = str(obj)`.  `args` values are modelled by `JVal`; a
value orjson cannot serialize natively carries its `str()` rendering
(`junknown`), as the `default` hook produces.  CPython's string hash is an
opaque function parameter. -/

inductive JVal
  | jnull
  | jbool (b : Bool)
  | jint (n : Int)
  | jstr (s : String)
  | jarr (xs : List JVal)
  | jobj (fields : List (String × JVal))
  | jdatetime (y mo d hh mi s micro : Nat)
  | junknown (s : String)

def hexDigit (n : Nat) : String :=
  String.singleton (("0123456789abcdef".data).getD n '0')

def jsonEscapeChar (c : Char) : String :=
  if c = '"' then "\\\""
  else if c = '\\' then "\\\\"
  else if c = '\n' then "\\n"
  else if c = '\t' then "\\t"
  else if c = '\r' then "\\r"
  else if c.toNat < 32 then "\\u00" ++ hexDigit (c.toNat / 16) ++ hexDigit (c.toNat % 16)
  else String.singleton c

def jsonQuote (s : String) : String :=
  "\"" ++ String.join (s.data.map jsonEscapeChar) ++ "\""

def pad2 (n : Nat) : String :=
  if n < 10 then "0" ++ toString n else toString n

def pad4 (n : Nat) : String :=
  if n < 10 then "000" ++ toString n
  else if n < 100 then "00" ++ toString n
  else if n < 1000 then "0" ++ toString n
  else toString n

def pad6 (n : Nat) : String :=
  if n < 10 then "00000" ++ toString n
  else if n < 100 then "0000" ++ toString n
  else if n < 1000 then "000" ++ toString n
  else if n < 10000 then "00" ++ toString n
  else if n < 100000 then "0" ++ toString n
  else toString n

/-- orjson's RFC 3339 rendering of a naive datetime; with
`OPT_OMIT_MICROSECONDS` (`omitMicros = true`) the fractional part is
dropped. -/
def isoDatetime (omitMicros : Bool) (y mo d hh mi s micro : Nat) : String :=
  pad4 y ++ "-" ++ pad2 mo ++ "-" ++ pad2 d ++ "T"
    ++ pad2 hh ++ ":" ++ pad2 mi ++ ":" ++ pad2 s
    ++ (if omitMicros || micro == 0 then "" else "." ++ pad6 micro)

mutual

def orjsonRender (omitMicros : Bool) : JVal → String
  | .jnull => "null"
  | .jbool true => "true"
  | .jbool false => "false"
  | .jint n => toString n
  | .jstr s => jsonQuote s
  | .jarr xs => "[" ++ orjsonRenderList omitMicros xs ++ "]"
  | .jobj fs => "\x7b" ++ orjsonRenderObj omitMicros fs ++ "\x7d"
  | .jdatetime y mo d hh mi s micro =>
      "\"" ++ isoDatetime omitMicros y mo d hh mi s micro ++ "\""
  | .junknown s => jsonQuote s

def orjsonRenderList (omitMicros : Bool) : List JVal → String
  | [] => ""
  | [x] => orjsonRender omitMicros x
  | x :: y :: xs =>
      orjsonRender omitMicros x ++ "," ++ orjsonRenderList omitMicros (y :: xs)

def orjsonRenderObj (omitMicros : Bool) : List (String × JVal) → String
  | [] => ""
  | [(k, v)] => jsonQuote k ++ ":" ++ orjsonRender omitMicros v
  | (k, v) :: f :: fs =>
      jsonQuote k ++ ":" ++ orjsonRender omitMicros v ++ ","
        ++ orjsonRenderObj omitMicros (f :: fs)

end

/-- `dbkey` (base.py lines 750-757): the key is
`hash(query + orjson.dumps(args, OPT_OMIT_MICROSECONDS, default=str))`;
the bound instance `m` and the wrapped function `f` are parameters the key
builder receives from aiocache but never reads. -/
def dbkey {α β : Type} (hash : String → Int) (m : α) (f : β)
    (query : String) (args : JVal) : Int :=
  hash (query ++ orjsonRender true args)

structure MemCacheEntry (γ : Type) where
  key : Int
  storedAt : Int
  value : γ

structure MemCache (γ : Type) where
  entries : List (MemCacheEntry γ)

/-- Modelled from the spec: the `@cached(900, key_builder=dbkey,
cache=SimpleMemoryCache, noself=True, ...)` decorator wrapping `DB.fetch`
comes from the third-party aiocache library, which is not part of this
repository's sources; the spec calls it "a generic memoize decorator ...
off-the-shelf".  It is modelled as a TTL memo table: a stored value whose age
is below the TTL is returned as a hit. -/
def cacheLookup {γ : Type} (c : MemCache γ) (now ttl key : Int) : Option γ :=
  match c.entries.find? (fun e => e.key == key && now - e.storedAt < ttl) with
  | some e => some e.value
  | none => none

/-- Modelled from the spec (continuation of `cacheLookup`): on a hit the
wrapped `DB.fetch` body is not run (the returned flag is `false`); on a miss
it runs and the result is stored at the current time. -/
def cachedFetch {γ : Type} (c : MemCache γ) (now ttl key : Int)
    (compute : Unit → γ) : γ × MemCache γ × Bool :=
  match cacheLookup c now ttl key with
  | some v => (v, c, false)
  | none =>
      let v := compute ()
      (v, ⟨⟨ key, now, v⟩ :: c.entries⟩, true)

/-- C7: the memoization key built by `dbkey` is a function of the query text
and the orjson serialization of the arguments only — microseconds omitted,
unknown types rendered via `str` — and is independent of the cached method's
bound instance `m` and wrapped function `f`; equal query strings and equal
kwargs therefore give the same key, and within the 900-second TTL a second
`DB.fetch` call with the same key is served from the cache without running
the database query again. -/
theorem dbkey_cache_props (α β γ : Type) :
    (∀ (hash : String → Int) (m m' : α) (f f' : β) (q : String) (a : JVal),
        dbkey hash m f q a = dbkey hash m' f' q a)
    ∧ (∀ (hash : String → Int) (m m' : α) (f f' : β) (q q' : String)
        (a a' : JVal), q = q' → a = a' →
        dbkey hash m f q a = dbkey hash m' f' q' a')
    ∧ (∀ (hash : String → Int) (m : α) (f : β) (q : String)
        (y mo d hh mi s micro1 micro2 : Nat),
        dbkey hash m f q (.jdatetime y mo d hh mi s micro1)
          = dbkey hash m f q (.jdatetime y mo d hh mi s micro2))
    ∧ (∀ (now1 now2 key : Int) (fdb gdb : Unit → γ), now2 - now1 < 900 →
        (cachedFetch (⟨ []⟩ : MemCache γ) now1 900 key fdb).2.2 = true
        ∧ (cachedFetch (cachedFetch (⟨ []⟩ : MemCache γ) now1 900 key fdb).2.1
            now2 900 key gdb).2.2 = false
        ∧ (cachedFetch (cachedFetch (⟨ []⟩ : MemCache γ) now1 900 key fdb).2.1
            now2 900 key gdb).1
          = (cachedFetch (⟨ []⟩ : MemCache γ) now1 900 key fdb).1) := by
  refine ⟨ ?_, ?_, ?_, ?_⟩
  · intro hash m m' f f' q a
    rfl
  · intro hash m m' f f' q q' a a' hq ha
    subst hq
    subst ha
    rfl
  · intro hash m f q y mo d hh mi s micro1 micro2
    unfold dbkey
    simp [orjsonRender, isoDatetime]
  · intro now1 now2 key fdb gdb hlt
    refine ⟨ rfl, ?_, ?_⟩ <;>
      simp [cachedFetch, cacheLookup, List.find?, hlt]

/-- Witness for C7: concrete instantiations — two different bound
instances/functions give the same key, two datetimes differing only in
microseconds give the same key, and a second lookup 100 seconds after a miss
is a hit that skips the database. -/
theorem dbkey_cache_props_witness :
    dbkey (fun s => (s.length : Int)) 1 2 "SELECT 1" .jnull
      = dbkey (fun s => (s.length : Int)) 3 4 "SELECT 1" .jnull
    ∧ dbkey (fun s => (s.length : Int)) 1 2 "q" (.jdatetime 2021 1 2 3 4 5 111111)
      = dbkey (fun s => (s.length : Int)) 1 2 "q" (.jdatetime 2021 1 2 3 4 5 999999)
    ∧ (cachedFetch (cachedFetch (⟨ []⟩ : MemCache Nat) 1000 900 7 (fun _ => 42)).2.1
        1100 900 7 (fun _ => 43)).2.2 = false := by
  refine ⟨ ?_, ?_, ?_⟩
  · exact (dbkey_cache_props Nat Nat Nat).1 (fun s => (s.length : Int)) 1 3 2 4
      "SELECT 1" .jnull
  · exact (dbkey_cache_props Nat Nat Nat).2.2.1 (fun s => (s.length : Int)) 1 2
      "q" 2021 1 2 3 4 5 111111 999999
  · exact ((dbkey_cache_props Nat Nat Nat).2.2.2 1000 1100 7 (fun _ => 42)
      (fun _ => 43) (by decide)).2.1

/-! ### The ingestion transaction (ingest.py lines 420-508)

`load_fetch_file` connects with `set_session(autocommit=False)` — psycopg2
then keeps every statement in one transaction until `commit` — creates the
staging table, COPYs the parsed rows in, executes the multi-statement
`processquery` script, reads the single row produced by the script's final
`SELECT min(datetime), max(datetime) FROM tempfetchdata` with `fetchone()`,
and only then commits (twice; the second commit is a no-op).  Statements are
modelled at the granularity the claim speaks about: their kind, the tables
they write, and whether a temp-table creation is declared ON COMMIT DROP. -/

inductive StmtKind
  | createTemp (onCommitDrop : Bool)
  | createTempAs
  | createIndex
  | update
  | insertSelect (onConflictDoNothing : Bool)
  | insertSelectAndUpdate
  | delete
  | select (exprs : List String) (fromTable : String)
deriving DecidableEq

structure SQLStmt where
  kind : StmtKind
  writes : List String
deriving DecidableEq

/-- The statements of the `processquery` script (ingest.py lines 111-418), in
textual order, with the tables each one writes. -/
def processquery : List SQLStmt :=
  [ ⟨ .createTempAs, ["tempfetchdata_sensors"]⟩            -- lines 112-155
  , ⟨ .createIndex, ["tempfetchdata_sensors"]⟩             -- line 156
  , ⟨ .update, ["tempfetchdata_sensors"]⟩                  -- lines 161-162 geom
  , ⟨ .update, ["tempfetchdata_sensors"]⟩                  -- lines 164-165 units
  , ⟨ .update, ["tempfetchdata_sensors"]⟩                  -- lines 167-177 metadata
  , ⟨ .createTempAs, ["tempfetchdata_nodes"]⟩              -- lines 180-215
  , ⟨ .update, ["tempfetchdata_nodes"]⟩                    -- lines 221-224 geom lookup
  , ⟨ .update, ["tempfetchdata_nodes"]⟩                    -- lines 226-230 name lookup
  , ⟨ .update, ["sensor_nodes"]⟩                           -- lines 234-266 changed rows
  , ⟨ .insertSelectAndUpdate, ["sensor_nodes", "tempfetchdata_nodes"]⟩  -- lines 269-293
  , ⟨ .update, ["tempfetchdata_nodes"]⟩                    -- lines 299-301 systems lookup
  , ⟨ .insertSelect false, ["rejects"]⟩                    -- lines 304-306
  , ⟨ .delete, ["tempfetchdata_nodes"]⟩                    -- line 307
  , ⟨ .insertSelectAndUpdate, ["sensor_systems", "tempfetchdata_nodes"]⟩  -- lines 310-316
  , ⟨ .insertSelect false, ["rejects"]⟩                    -- lines 319-321
  , ⟨ .delete, ["tempfetchdata_nodes"]⟩                    -- line 322
  , ⟨ .update, ["tempfetchdata_sensors"]⟩                  -- lines 325-331 merge ids
  , ⟨ .update, ["tempfetchdata_sensors"]⟩                  -- lines 335-337 measurands lookup
  , ⟨ .insertSelectAndUpdate, ["measurands", "tempfetchdata_sensors"]⟩  -- lines 339-345
  , ⟨ .createTempAs, ["tempfetchdata_sensors_clean"]⟩      -- lines 348-357
  , ⟨ .update, ["tempfetchdata_sensors_clean"]⟩            -- lines 361-368 sensor lookup
  , ⟨ .insertSelect false, ["rejects"]⟩                    -- lines 370-372
  , ⟨ .delete, ["tempfetchdata_sensors_clean"]⟩            -- line 373
  , ⟨ .insertSelectAndUpdate, ["sensors", "tempfetchdata_sensors_clean"]⟩  -- lines 376-401
  , ⟨ .update, ["tempfetchdata"]⟩                          -- lines 403-405
  , ⟨ .insertSelect false, ["rejects"]⟩                    -- lines 408-410
  , ⟨ .delete, ["tempfetchdata"]⟩                          -- line 411
  , ⟨ .insertSelect true, ["measurements"]⟩                -- lines 413-416 ON CONFLICT DO NOTHING
  , ⟨ .select ["min(datetime)", "max(datetime)"] "tempfetchdata", []⟩  -- line 417
  ]

inductive DBOp
  | connect
  | exec (stmts : List SQLStmt)
  | copyInto (table : String) (columns : List String)
  | fetchoneRow
  | commit
deriving DecidableEq

/-- The `CREATE TEMP TABLE IF NOT EXISTS tempfetchdata (...) ON COMMIT DROP`
statement (ingest.py lines 427-446). -/
def createTempfetchdata : SQLStmt := ⟨ .createTemp true, ["tempfetchdata"]⟩

/-- The database operations `load_fetch_file` performs, in program order
(ingest.py lines 420-508). -/
def load_fetch_file_trace : List DBOp :=
  [ .connect
  , .exec [createTempfetchdata]
  , .copyInto "tempfetchdata"
      ["location", "value", "unit", "parameter", "country", "city", "data",
       "source_name", "datetime", "coords", "source_type", "mobile",
       "avpd_unit", "avpd_value"]
  , .exec processquery
  , .fetchoneRow
  , .commit
  , .commit
  ]

/-- The session-scoped temporary tables of the ingest pipeline; everything
else is a normalized (permanent) table. -/
def tempTables : List String :=
  ["tempfetchdata", "tempfetchdata_sensors", "tempfetchdata_nodes",
   "tempfetchdata_sensors_clean"]

def opWritesNormalized : DBOp → Bool
  | .exec stmts =>
      stmts.any (fun st => st.writes.any (fun t => !(tempTables.contains t)))
  | .copyInto t _ => !(tempTables.contains t)
  | _ => false

def isCopyOp : DBOp → Bool
  | .copyInto _ _ => true
  | _ => false

/-- C2: the trace of `load_fetch_file` connects first, creates the
`tempfetchdata` staging table with ON COMMIT DROP, copies the parsed rows into
it, executes the ingest script, reads the script's final two aggregates
(`min(datetime)` and `max(datetime)` of the staged rows) with one fetch, and
only then commits; the only copy is at position 2, no operation before it
writes a normalized table, and no commit precedes any other operation. -/
theorem load_fetch_file_transaction_order :
    load_fetch_file_trace.head? = some .connect
    ∧ load_fetch_file_trace.get? 1 = some (.exec [createTempfetchdata])
    ∧ createTempfetchdata.kind = .createTemp true
    ∧ createTempfetchdata.writes = ["tempfetchdata"]
    ∧ load_fetch_file_trace.findIdx isCopyOp = 2
    ∧ (load_fetch_file_trace.filter isCopyOp).length = 1
    ∧ (∀ op ∈ load_fetch_file_trace.take 2, opWritesNormalized op = false)
    ∧ load_fetch_file_trace.get? 3 = some (.exec processquery)
    ∧ processquery.getLast?
        = some ⟨ .select ["min(datetime)", "max(datetime)"] "tempfetchdata", []⟩
    ∧ (∀ exprs tbl w, processquery.getLast? = some ⟨ .select exprs tbl, w⟩ →
        exprs.length = 2)
    ∧ load_fetch_file_trace.get? 4 = some .fetchoneRow
    ∧ load_fetch_file_trace.drop 5 = [.commit, .commit]
    ∧ (∀ op ∈ load_fetch_file_trace.take 5, op ≠ .commit) := by
  refine ⟨ rfl, rfl, rfl, rfl, by decide, by decide, by decide, rfl, rfl,
    ?_, rfl, rfl, by decide⟩
  intro exprs tbl w hlast
  have hv : (⟨ .select ["min(datetime)", "max(datetime)"] "tempfetchdata", []⟩ : SQLStmt)
      = ⟨ .select exprs tbl, w⟩ := by
    apply Option.some.inj
    rw [← hlast]
    rfl
  have hkind := congrArg SQLStmt.kind hv
  simp only [StmtKind.select.injEq] at hkind
  rw [← hkind.1]
  rfl

/-- Witness for C2: instantiating the aggregate-select conjunct at the
script's actual final statement shows it reads back exactly two values. -/
theorem load_fetch_file_transaction_order_witness :
    (["min(datetime)", "max(datetime)"] : List String).length = 2 :=
  load_fetch_file_transaction_order.2.2.2.2.2.2.2.2.2.1
    ["min(datetime)", "max(datetime)"] "tempfetchdata" [] rfl

/-! ### Reject-or-upsert semantics of the ingest script (ingest.py lines 303-416)

The script repeats one pattern per staging table: after the lookup/insert
resolution steps, `INSERT INTO rejects SELECT clock_timestamp(), '<tag>',
to_jsonb(tf) FROM <staging> WHERE <id> IS NULL` followed by `DELETE FROM
<staging> WHERE <id> IS NULL` — the reject insert reads the staging table
before the delete removes the rows.  `rejectAndDelete` computes both results
from the pre-delete table, which is exactly that ordering.  The `to_jsonb`
rendering and the `clock_timestamp()` column are abstracted into a payload
function. -/

structure NodeRow where
  sensor_nodes_id : Option Nat
  sensor_systems_id : Option Nat
  payload : String
deriving DecidableEq

structure CleanRow where
  sensors_id : Option Nat
  sensor_systems_id : Option Nat
  measurands_id : Option Nat
  tfdids : List Nat
deriving DecidableEq

structure TfdRow where
  tfdid : Nat
  sensors_id : Option Nat
  datetime : Int
  value : Int
deriving DecidableEq

structure MeasRow where
  sensors_id : Option Nat
  datetime : Int
  value : Int
deriving DecidableEq

/-- One `INSERT INTO rejects ... WHERE bad; DELETE FROM staging WHERE bad;`
pair. -/
def rejectAndDelete {α : Type} (tag : String) (toJsonb : α → String)
    (isBad : α → Bool) (staging : List α)
    (rejects : List (String × String)) :
    List α × List (String × String) :=
  (staging.filter (fun r => !(isBad r)),
   rejects ++ (staging.filter isBad).map (fun r => (tag, toJsonb r)))

/-- Modelled from the spec: the `measurements` table's unique constraint is
declared in the database schema DDL, which is not among the repository's
source files; per the spec's deduplication reading, a duplicate measurement
is a row with the same sensor and timestamp. -/
def measKey (r : MeasRow) : Option Nat × Int :=
  (r.sensors_id, r.datetime)

/-- `INSERT INTO measurements (sensors_id, datetime, value) SELECT ... FROM
tempfetchdata ON CONFLICT DO NOTHING` (lines 413-416): rows are inserted in
order, and a row whose key is already present — in the table or inserted
earlier in the same statement — is skipped. -/
def insertOnConflictDoNothing (existing : List MeasRow)
    (rows : List MeasRow) : List MeasRow :=
  rows.foldl
    (fun acc r =>
      if acc.any (fun e => measKey e = measKey r) then acc else acc ++ [r])
    existing

/-- `UPDATE tempfetchdata t SET sensors_id = ts.sensors_id FROM
tempfetchdata_sensors_clean ts WHERE t.tfdid = ANY(ts.tfdids)`
(lines 403-405). -/
def tfdResolve (clean : List CleanRow) (tfd : List TfdRow) : List TfdRow :=
  tfd.map (fun r =>
    match clean.find? (fun c => c.tfdids.contains r.tfdid) with
    | some c => { r with sensors_id := c.sensors_id }
    | none => r)

/-- The contiguous final segment of the script (lines 403-416): resolve
`tempfetchdata.sensors_id` from the cleaned sensors, reject and delete the
rows still unresolved, then insert the remaining rows into `measurements`. -/
def ingestTail (toJsonb : TfdRow → String) (clean : List CleanRow)
    (tfd : List TfdRow) (rejects : List (String × String))
    (meas : List MeasRow) :
    List TfdRow × List (String × String) × List MeasRow :=
  let tfd1 := tfdResolve clean tfd
  let rd := rejectAndDelete "sensors" toJsonb (fun r => r.sensors_id.isNone)
    tfd1 rejects
  let meas2 := insertOnConflictDoNothing meas
    (rd.1.map (fun r => ⟨ r.sensors_id, r.datetime, r.value⟩))
  (rd.1, rd.2, meas2)

theorem mem_insertOnConflictDoNothing (rows : List MeasRow) :
    ∀ (existing : List MeasRow) (r : MeasRow),
      r ∈ insertOnConflictDoNothing existing rows →
      r ∈ existing ∨ r ∈ rows := by
  induction rows with
  | nil =>
      intro existing r hr
      exact Or.inl hr
  | cons x xs ih =>
      intro existing r hr
      have hr' : r ∈ insertOnConflictDoNothing
          (if existing.any (fun e => measKey e = measKey x) then existing
           else existing ++ [x]) xs := hr
      rcases ih _ r hr' with hmem | hmem
      · split at hmem
        · exact Or.inl hmem
        · rcases List.mem_append.mp hmem with h | h
          · exact Or.inl h
          · exact Or.inr (by simp at h; simp [h])
      · exact Or.inr (List.mem_cons_of_mem _ hmem)

theorem pairwise_insertOnConflictDoNothing (rows : List MeasRow) :
    ∀ existing : List MeasRow,
      existing.Pairwise (fun a b => measKey a ≠ measKey b) →
      (insertOnConflictDoNothing existing rows).Pairwise
        (fun a b => measKey a ≠ measKey b) := by
  induction rows with
  | nil =>
      intro existing hp
      exact hp
  | cons x xs ih =>
      intro existing hp
      show (insertOnConflictDoNothing
        (if existing.any (fun e => measKey e = measKey x) then existing
         else existing ++ [x]) xs).Pairwise _
      apply ih
      split
      · exact hp
      · rename_i hnone
        rw [List.pairwise_append]
        refine ⟨ hp, List.pairwise_singleton _ _, ?_⟩
      
        intro a ha b hb
        have hb' : b = x := by simpa using hb
        intro hk
        have hax : measKey a = measKey x := by rw [← hb']; exact hk
        have : existing.any (fun e => measKey e = measKey x) = true :=
          List.any_eq_true.mpr ⟨ a, ha, by simpa using hax⟩
        exact hnone this

/-- C3: in the ingest script, every staged row left with a null
`sensor_nodes_id`, `sensor_systems_id`, `measurands_id` or `sensors_id` after
the lookup and insert steps is first copied into `rejects` (tagged with its
stage) and then deleted from its staging table, so the final `INSERT INTO
measurements` receives only rows with a resolved `sensors_id`, and duplicate
measurements are skipped by `ON CONFLICT DO NOTHING`. -/
theorem ingest_rejects_then_inserts
    (toJsonbN : NodeRow → String) (toJsonbC : CleanRow → String)
    (toJsonbT : TfdRow → String) :
    (∀ (nodes : List NodeRow) (rejects : List (String × String)),
      (∀ r ∈ (rejectAndDelete "sensor_nodes" toJsonbN
          (fun r => r.sensor_nodes_id.isNone) nodes rejects).1,
        r.sensor_nodes_id.isSome = true)
      ∧ (rejectAndDelete "sensor_nodes" toJsonbN
          (fun r => r.sensor_nodes_id.isNone) nodes rejects).2
        = rejects ++ (nodes.filter (fun r => r.sensor_nodes_id.isNone)).map
            (fun r => ("sensor_nodes", toJsonbN r)))
    ∧ (∀ (nodes : List NodeRow) (rejects : List (String × String)),
      (∀ r ∈ (rejectAndDelete "sensor_systems" toJsonbN
          (fun r => r.sensor_systems_id.isNone) nodes rejects).1,
        r.sensor_systems_id.isSome = true)
      ∧ (rejectAndDelete "sensor_systems" toJsonbN
          (fun r => r.sensor_systems_id.isNone) nodes rejects).2
        = rejects ++ (nodes.filter (fun r => r.sensor_systems_id.isNone)).map
            (fun r => ("sensor_systems", toJsonbN r)))
    ∧ (∀ (clean : List CleanRow) (rejects : List (String × String)),
      (∀ r ∈ (rejectAndDelete "sensors" toJsonbC
          (fun r => r.sensor_systems_id.isNone || r.measurands_id.isNone)
          clean rejects).1,
        r.sensor_systems_id.isSome = true ∧ r.measurands_id.isSome = true)
      ∧ (rejectAndDelete "sensors" toJsonbC
          (fun r => r.sensor_systems_id.isNone || r.measurands_id.isNone)
          clean rejects).2
        = rejects ++ (clean.filter
            (fun r => r.sensor_systems_id.isNone || r.measurands_id.isNone)).map
            (fun r => ("sensors", toJsonbC r)))
    ∧ (∀ (clean : List CleanRow) (tfd : List TfdRow)
        (rejects : List (String × String)) (meas : List MeasRow),
      (∀ r ∈ (ingestTail toJsonbT clean tfd rejects meas).1,
        r.sensors_id.isSome = true)
      ∧ (ingestTail toJsonbT clean tfd rejects meas).2.1
        = rejects ++ ((tfdResolve clean tfd).filter
            (fun r => r.sensors_id.isNone)).map (fun r => ("sensors", toJsonbT r))
      ∧ (∀ r ∈ (ingestTail toJsonbT clean tfd rejects meas).2.2,
          r ∈ meas ∨ r.sensors_id.isSome = true)
      ∧ (meas.Pairwise (fun a b => measKey a ≠ measKey b) →
          ((ingestTail toJsonbT clean tfd rejects meas).2.2).Pairwise
            (fun a b => measKey a ≠ measKey b))) := by
  have hkept : ∀ {α : Type} (tag : String) (tj : α → String) (bad : α → Bool)
      (st : List α) (rj : List (String × String)) (r : α),
      r ∈ (rejectAndDelete tag tj bad st rj).1 → bad r = false := by
    intro α tag tj bad st rj r hr
    have := List.of_mem_filter hr
    simpa using this
  refine ⟨ ?_, ?_, ?_, ?_⟩
  · intro nodes rejects
    refine ⟨ ?_, rfl⟩
    intro r hr
    have hb := hkept _ _ _ _ _ _ hr
    cases hopt : r.sensor_nodes_id with
    | none => rw [hopt] at hb; simp at hb
    | some v => simp
  · intro nodes rejects
    refine ⟨ ?_, rfl⟩
    intro r hr
    have hb := hkept _ _ _ _ _ _ hr
    cases hopt : r.sensor_systems_id with
    | none => rw [hopt] at hb; simp at hb
    | some v => simp
  · intro clean rejects
    refine ⟨ ?_, rfl⟩
    intro r hr
    have hb := hkept _ _ _ _ _ _ hr
    simp only [Bool.or_eq_false_iff] at hb
    constructor
    · cases hopt : r.sensor_systems_id with
      | none => rw [hopt] at hb; simp at hb
      | some v => simp
    · cases hopt : r.measurands_id with
      | none => rw [hopt] at hb; simp at hb
      | some v => simp
  · intro clean tfd rejects meas
    refine ⟨ ?_, rfl, ?_, ?_⟩
    · intro r hr
      have hb : r.sensors_id.isNone = false := hkept "sensors" toJsonbT
        (fun r => r.sensors_id.isNone) (tfdResolve clean tfd) rejects r hr
      cases hopt : r.sensors_id with
      | none => rw [hopt] at hb; simp at hb
      | some v => simp
    · intro r hr
      rcases mem_insertOnConflictDoNothing _ _ _ hr with h | h
      · exact Or.inl h
      · right
        obtain ⟨ t, ht, hteq⟩ := List.mem_map.mp h
        have hb : t.sensors_id.isNone = false := hkept "sensors" toJsonbT
          (fun r => r.sensors_id.isNone) (tfdResolve clean tfd) rejects t ht
        rw [← hteq]
        cases hopt : t.sensors_id with
        | none => rw [hopt] at hb; simp at hb
        | some v => simp
    · intro hp
      exact pairwise_insertOnConflictDoNothing _ _ hp

/-- Witness for C3: one unresolved and one resolved staged measurement row —
the unresolved row is rejected and deleted, the resolved one reaches
`measurements`, and a key-distinct `measurements` table stays
key-distinct. -/
theorem ingest_rejects_then_inserts_witness :
    (∀ r ∈ (ingestTail (fun r => toString r.tfdid) []
        [⟨ 1, none, 100, 5⟩, ⟨ 2, some 9, 200, 6⟩] [] []).1,
      r.sensors_id.isSome = true)
    ∧ (([] : List MeasRow).Pairwise (fun a b => measKey a ≠ measKey b) →
        ((ingestTail (fun r => toString r.tfdid) []
          [⟨ 1, none, 100, 5⟩, ⟨ 2, some 9, 200, 6⟩] [] []).2.2).Pairwise
          (fun a b => measKey a ≠ measKey b)) := by
  constructor
  · exact ((ingest_rejects_then_inserts (fun r => r.payload)
      (fun _ => "c") (fun r => toString r.tfdid)).2.2.2 []
      [⟨ 1, none, 100, 5⟩, ⟨ 2, some 9, 200, 6⟩] [] []).1
  · exact ((ingest_rejects_then_inserts (fun r => r.payload)
      (fun _ => "c") (fun r => toString r.tfdid)).2.2.2 []
      [⟨ 1, none, 100, 5⟩, ⟨ 2, some 9, 200, 6⟩] [] []).2.2.2

/-! ### parse_json and clean_csv_value (ingest.py lines 51-105 and
ingest/fetch.py lines 60-120)

Python values as the ingestion generator sees them (`json.loads` of a fetch
line, so dict keys are strings).  Python strings are `List Char`; a float
carries its `str()` rendering, which is all the code ever uses of it.
`str()`/`repr()` of containers and `repr()`'s quote-escaping are rendered in
simplified form (single quotes, no escaping): no claim depends on their exact
text, only on `clean_csv_value` being applied on top.  A step that raises
(`KeyError`, `TypeError`, `AttributeError`) yields `none`. -/

inductive PyVal
  | pnone
  | pbool (b : Bool)
  | pint (n : Int)
  | pfloat (render : List Char)
  | pstr (s : List Char)
  | plist (xs : List PyVal)
  | pdict (fields : List (List Char × PyVal))

/-! Python `str()`; containers render their elements with `repr()`. -/
mutual

def pyStr : PyVal → List Char
  | .pnone => "None".data
  | .pbool true => "True".data
  | .pbool false => "False".data
  | .pint n => (toString n).data
  | .pfloat r => r
  | .pstr s => s
  | .plist xs => '[' :: pyReprItems xs ++ [']']
  | .pdict fs => '\x7b' :: pyReprFields fs ++ ['\x7d']

def pyRepr : PyVal → List Char
  | .pnone => "None".data
  | .pbool true => "True".data
  | .pbool false => "False".data
  | .pint n => (toString n).data
  | .pfloat r => r
  | .pstr s => '\'' :: s ++ ['\'']
  | .plist xs => '[' :: pyReprItems xs ++ [']']
  | .pdict fs => '\x7b' :: pyReprFields fs ++ ['\x7d']

def pyReprItems : List PyVal → List Char
  | [] => []
  | [x] => pyRepr x
  | x :: y :: xs => pyRepr x ++ ',' :: ' ' :: pyReprItems (y :: xs)

def pyReprFields : List (List Char × PyVal) → List Char
  | [] => []
  | [(k, v)] => '\'' :: k ++ '\'' :: ':' :: ' ' :: pyRepr v
  | (k, v) :: f :: fs =>
      '\'' :: k ++ '\'' :: ':' :: ' ' :: pyRepr v ++ ',' :: ' '
        :: pyReprFields (f :: fs)

end

def hexChar (n : Nat) : Char :=
  "0123456789abcdef".data.getD n '0'

/-- JSON string escaping as `json.dumps` performs it for ASCII input
(non-ASCII `ensure_ascii` escaping is irrelevant here and omitted). -/
def jsonEscCharList (c : Char) : List Char :=
  if c = '"' then ['\\', '"']
  else if c = '\\' then ['\\', '\\']
  else if c = '\n' then ['\\', 'n']
  else if c = '\t' then ['\\', 't']
  else if c = '\r' then ['\\', 'r']
  else if c.toNat < 32 then
    ['\\', 'u', '0', '0', hexChar (c.toNat / 16), hexChar (c.toNat % 16)]
  else [c]

def jsonEscStr (s : List Char) : List Char :=
  (s.map jsonEscCharList).flatten

/-! Python `json.dumps` with its default separators `", "` and `": "`. -/
mutual

def jsonDumps : PyVal → List Char
  | .pnone => "null".data
  | .pbool true => "true".data
  | .pbool false => "false".data
  | .pint n => (toString n).data
  | .pfloat r => r
  | .pstr s => '"' :: jsonEscStr s ++ ['"']
  | .plist xs => '[' :: jsonDumpsItems xs ++ [']']
  | .pdict fs => '\x7b' :: jsonDumpsFields fs ++ ['\x7d']

def jsonDumpsItems : List PyVal → List Char
  | [] => []
  | [x] => jsonDumps x
  | x :: y :: xs => jsonDumps x ++ ',' :: ' ' :: jsonDumpsItems (y :: xs)

def jsonDumpsFields : List (List Char × PyVal) → List Char
  | [] => []
  | [(k, v)] => '"' :: jsonEscStr k ++ '"' :: ':' :: ' ' :: jsonDumps v
  | (k, v) :: f :: fs =>
      '"' :: jsonEscStr k ++ '"' :: ':' :: ' ' :: jsonDumps v ++ ',' :: ' '
        :: jsonDumpsFields (f :: fs)

end

/-- Python `s.replace(c, r)` for a one-character pattern `c`: every
occurrence is replaced. -/
def replaceChar (c : Char) (r : List Char) : List Char → List Char
  | [] => []
  | x :: xs => (if x = c then r else [x]) ++ replaceChar c r xs

/-- `clean_csv_value` (ingest.py lines 51-54): `None` becomes `\N`, any other
value is `str`-rendered, then newlines become the two characters `\n` and
tabs become spaces. -/
def clean_csv_value (v : PyVal) : List Char :=
  match v with
  | .pnone => ['\\', 'N']
  | _ => replaceChar '\t' [' '] (replaceChar '\n' ['\\', 'n'] (pyStr v))

/-- `clean_csv_value` as defined, character for character identically, in
ingest/fetch.py lines 60-63. -/
def clean_csv_value_f (v : PyVal) : List Char :=
  match v with
  | .pnone => ['\\', 'N']
  | _ => replaceChar '\t' [' '] (replaceChar '\n' ['\\', 'n'] (pyStr v))

abbrev PyDict := List (List Char × PyVal)

def dictLookup (j : PyDict) (k : List Char) : Option PyVal :=
  match j.find? (fun e => e.1 = k) with
  | some e => some e.2
  | none => none

/-- `j.pop(k, None)`: the value (or `None` when absent) and the dict without
the key. -/
def dictPop (j : PyDict) (k : List Char) : PyVal × PyDict :=
  ((dictLookup j k).getD .pnone, j.eraseP (fun e => e.1 = k))

/-- Python `key in v`: key test for dicts, membership for lists, substring
for strings, `TypeError` otherwise. -/
def pyContains (v : PyVal) (k : List Char) : Option Bool :=
  match v with
  | .pdict fs => some (fs.any (fun e => e.1 = k))
  | .plist xs =>
      some (xs.any (fun e => match e with | .pstr s => s = k | _ => false))
  | .pstr s => some (decide (k <:+: s))
  | _ => none

/-- Python `v[k]` for a string key: dict indexing; `TypeError`/`KeyError`
otherwise. -/
def pyIndex (v : PyVal) (k : List Char) : Option PyVal :=
  match v with
  | .pdict fs => dictLookup fs k
  | _ => none

/-- The coordinates conditional shared verbatim by both parse_json versions:
`if "coordinates" in j and "longitude" in j["coordinates"] and "latitude" in
j["coordinates"]: c = j.pop("coordinates")` with the two component reads;
only the string assembled from the components differs between the files. -/
def coordsCheck (j : PyDict) :
    Option (Option (PyVal × PyVal) × PyDict) :=
  match dictLookup j ("coordinates".data) with
  | none => some (none, j)
  | some c =>
    match pyContains c ("longitude".data) with
    | none => none
    | some false => some (none, j)
    | some true =>
      match pyContains c ("latitude".data) with
      | none => none
      | some false => some (none, j)
      | some true =>
        match pyIndex c ("longitude".data), pyIndex c ("latitude".data) with
        | some lon, some lat =>
            some (some (lon, lat),
              j.eraseP (fun e => e.1 = ("coordinates".data)))
        | some _, none => none
        | none, _ => none

/-- `"SRID=4326;POINT(" + str(c["longitude"]) + " " + str(c["latitude"]) +
")"` (ingest.py lines 79-82). -/
def coordsRender (lon lat : PyVal) : List Char :=
  "SRID=4326;POINT(".data ++ pyStr lon ++ " ".data ++ pyStr lat ++ ")".data

/-- `"".join(("SRID=4326;POINT(", str(c["longitude"]), " ",
str(c["latitude"]), ")"))` (ingest/fetch.py lines 89-97). -/
def coordsRender_f (lon lat : PyVal) : List Char :=
  (["SRID=4326;POINT(".data, pyStr lon, " ".data, pyStr lat, ")".data]).flatten

/-- `avpd = j.pop("averagingPeriod", None); if avpd is not None:
avpd_unit = avpd.pop("unit", None); avpd_value = avpd.pop("value", None)`
(shared verbatim by both files); a non-dict, non-None value raises
`AttributeError`. -/
def avpdSplit (avpd : PyVal) : Option (PyVal × PyVal) :=
  match avpd with
  | .pnone => some (.pnone, .pnone)
  | .pdict fs =>
      some ((dictPop fs ("unit".data)).1,
        (dictPop (dictPop fs ("unit".data)).2 ("value".data)).1)
  | _ => none

/-- `"\t".join(...)`: join with a single-character separator. -/
def joinSep (sep : Char) : List (List Char) → List Char
  | [] => []
  | [x] => x
  | x :: y :: xs => x ++ sep :: joinSep sep (y :: xs)

/-- The 14 extracted fields of `parse_json` (ingest.py lines 57-103), in the
order the `row` list assembles them. -/
def rowOf (j0 : PyDict) : Option (List PyVal) :=
  let location := (dictPop j0 ("location".data)).1
  let j1 := (dictPop j0 ("location".data)).2
  let value := (dictPop j1 ("value".data)).1
  let j2 := (dictPop j1 ("value".data)).2
  let unit := (dictPop j2 ("unit".data)).1
  let j3 := (dictPop j2 ("unit".data)).2
  let parameter := (dictPop j3 ("parameter".data)).1
  let j4 := (dictPop j3 ("parameter".data)).2
  let country := (dictPop j4 ("country".data)).1
  let j5 := (dictPop j4 ("country".data)).2
  let city := (dictPop j5 ("city".data)).1
  let j6 := (dictPop j5 ("city".data)).2
  let source_name := (dictPop j6 ("sourceName".data)).1
  let j7 := (dictPop j6 ("sourceName".data)).2
  match dictLookup j7 ("date".data) with
  | none => none
  | some dateval =>
    match pyIndex dateval ("utc".data) with
    | none => none
    | some date =>
      let j8 := (dictPop j7 ("date".data)).2
      let source_type := (dictPop j8 ("sourceType".data)).1
      let j9 := (dictPop j8 ("sourceType".data)).2
      let mobile := (dictPop j9 ("mobile".data)).1
      let j10 := (dictPop j9 ("mobile".data)).2
      let avpd := (dictPop j10 ("averagingPeriod".data)).1
      let j11 := (dictPop j10 ("averagingPeriod".data)).2
      match avpdSplit avpd with
      | none => none
      | some (avpd_unit, avpd_value) =>
        match coordsCheck j11 with
        | none => none
        | some (copt, j12) =>
          let coords : PyVal :=
            match copt with
            | some (lon, lat) => .pstr (coordsRender lon lat)
            | none => .pnone
          let data : PyVal := .pstr (jsonDumps (.pdict j12))
          some [location, value, unit, parameter, country, city, data,
                source_name, date, coords, source_type, mobile,
                avpd_unit, avpd_value]

/-- `parse_json` (ingest.py lines 57-105):
`"\t".join(map(clean_csv_value, row)) + "\n"`. -/
def parse_json (j : PyDict) : Option (List Char) :=
  (rowOf j).map (fun row => joinSep '\t' (row.map clean_csv_value) ++ ['\n'])

/-- The 14 extracted fields of the second `parse_json` (ingest/fetch.py lines
66-118); textually the only difference from `rowOf` is the `str.join`-built
coordinate string. -/
def rowOf_f (j0 : PyDict) : Option (List PyVal) :=
  let location := (dictPop j0 ("location".data)).1
  let j1 := (dictPop j0 ("location".data)).2
  let value := (dictPop j1 ("value".data)).1
  let j2 := (dictPop j1 ("value".data)).2
  let unit := (dictPop j2 ("unit".data)).1
  let j3 := (dictPop j2 ("unit".data)).2
  let parameter := (dictPop j3 ("parameter".data)).1
  let j4 := (dictPop j3 ("parameter".data)).2
  let country := (dictPop j4 ("country".data)).1
  let j5 := (dictPop j4 ("country".data)).2
  let city := (dictPop j5 ("city".data)).1
  let j6 := (dictPop j5 ("city".data)).2
  let source_name := (dictPop j6 ("sourceName".data)).1
  let j7 := (dictPop j6 ("sourceName".data)).2
  match dictLookup j7 ("date".data) with
  | none => none
  | some dateval =>
    match pyIndex dateval ("utc".data) with
    | none => none
    | some date =>
      let j8 := (dictPop j7 ("date".data)).2
      let source_type := (dictPop j8 ("sourceType".data)).1
      let j9 := (dictPop j8 ("sourceType".data)).2
      let mobile := (dictPop j9 ("mobile".data)).1
      let j10 := (dictPop j9 ("mobile".data)).2
      let avpd := (dictPop j10 ("averagingPeriod".data)).1
      let j11 := (dictPop j10 ("averagingPeriod".data)).2
      match avpdSplit avpd with
      | none => none
      | some (avpd_unit, avpd_value) =>
        match coordsCheck j11 with
        | none => none
        | some (copt, j12) =>
          let coords : PyVal :=
            match copt with
            | some (lon, lat) => .pstr (coordsRender_f lon lat)
            | none => .pnone
          let data : PyVal := .pstr (jsonDumps (.pdict j12))
          some [location, value, unit, parameter, country, city, data,
                source_name, date, coords, source_type, mobile,
                avpd_unit, avpd_value]

/-- `parse_json` of ingest/fetch.py (lines 66-120). -/
def parse_json_f (j : PyDict) : Option (List Char) :=
  (rowOf_f j).map (fun row => joinSep '\t' (row.map clean_csv_value_f) ++ ['\n'])

theorem coordsRender_eq (lon lat : PyVal) :
    coordsRender lon lat = coordsRender_f lon lat := by
  simp [coordsRender, coordsRender_f]

theorem clean_csv_value_eq (v : PyVal) :
    clean_csv_value v = clean_csv_value_f v := by
  cases v <;> rfl

theorem rowOf_eq (j : PyDict) : rowOf j = rowOf_f j := by
  unfold rowOf rowOf_f
  simp only [coordsRender_eq]

/-- C9: the two record-to-COPY-line conversions — `parse_json` with
`clean_csv_value` in ingest.py, and the pair of the same names in
ingest/fetch.py — are extensionally equal: on every input record they either
raise identically or produce character-for-character the same line; the one
textual difference, `+`-concatenation versus `str.join` for the
`SRID=4326;POINT` string, yields the same string. -/
theorem parse_json_impls_equal (j : PyDict) : parse_json j = parse_json_f j := by
  unfold parse_json parse_json_f
  rw [rowOf_eq]
  rw [show clean_csv_value = clean_csv_value_f from funext clean_csv_value_eq]

theorem mem_replaceChar {x c : Char} {r : List Char} :
    ∀ {l : List Char}, x ∈ replaceChar c r l → x ∈ r ∨ (x ∈ l ∧ x ≠ c) := by
  intro l
  induction l with
  | nil =>
      intro h
      simp [replaceChar] at h
  | cons y ys ih =>
      intro h
      simp only [replaceChar] at h
      rcases List.mem_append.mp h with h1 | h1
      · by_cases hyc : y = c
        · rw [if_pos hyc] at h1
          exact Or.inl h1
        · rw [if_neg hyc] at h1
          have hxy : x = y := by simpa using h1
          subst hxy
          exact Or.inr ⟨ List.mem_cons_self _ _, hyc⟩
      · rcases ih h1 with h2 | h2
        · exact Or.inl h2
        · exact Or.inr ⟨ List.mem_cons_of_mem _ h2.1, h2.2⟩

theorem replaceChain_no_tab (s : List Char) :
    '\t' ∉ replaceChar '\t' [' '] (replaceChar '\n' ['\\', 'n'] s) := by
  intro h
  rcases mem_replaceChar h with h1 | h1
  · simp at h1
  · exact h1.2 rfl

theorem replaceChain_no_newline (s : List Char) :
    '\n' ∉ replaceChar '\t' [' '] (replaceChar '\n' ['\\', 'n'] s) := by
  intro h
  rcases mem_replaceChar h with h1 | h1
  · simp at h1
  · rcases mem_replaceChar h1.1 with h2 | h2
    · simp at h2
    · exact h2.2 rfl

theorem clean_csv_value_no_tab_newline (v : PyVal) :
    '\t' ∉ clean_csv_value v ∧ '\n' ∉ clean_csv_value v := by
  cases v with
  | pnone => exact ⟨ by decide, by decide⟩
  | pbool b => exact ⟨ replaceChain_no_tab _, replaceChain_no_newline _⟩
  | pint n => exact ⟨ replaceChain_no_tab _, replaceChain_no_newline _⟩
  | pfloat r => exact ⟨ replaceChain_no_tab _, replaceChain_no_newline _⟩
  | pstr s => exact ⟨ replaceChain_no_tab _, replaceChain_no_newline _⟩
  | plist xs => exact ⟨ replaceChain_no_tab _, replaceChain_no_newline _⟩
  | pdict fs => exact ⟨ replaceChain_no_tab _, replaceChain_no_newline _⟩

theorem count_joinSep_sep (sep : Char) :
    ∀ xs : List (List Char), (∀ x ∈ xs, sep ∉ x) →
      (joinSep sep xs).count sep = xs.length - 1 := by
  intro xs
  induction xs with
  | nil =>
      intro _
      rfl
  | cons x ys ih =>
      intro hall
      cases ys with
      | nil =>
          have h0 : x.count sep = 0 :=
            List.count_eq_zero.mpr (hall x (by simp))
          simpa [joinSep] using h0
      | cons y zs =>
          have h0 : x.count sep = 0 :=
            List.count_eq_zero.mpr (hall x (by simp))
          have hrest := ih (fun z hz => hall z (List.mem_cons_of_mem _ hz))
          simp only [joinSep] at hrest ⊢
          rw [List.count_append, h0, List.count_cons]
          simp only [beq_self_eq_true, if_true, List.length_cons] at hrest ⊢
          omega

theorem count_joinSep_other (sep c : Char) (hne : c ≠ sep) :
    ∀ xs : List (List Char), (∀ x ∈ xs, c ∉ x) →
      (joinSep sep xs).count c = 0 := by
  intro xs
  induction xs with
  | nil =>
      intro _
      rfl
  | cons x ys ih =>
      intro hall
      cases ys with
      | nil =>
          simpa [joinSep] using List.count_eq_zero.mpr (hall x (by simp))
      | cons y zs =>
          have h0 : x.count c = 0 :=
            List.count_eq_zero.mpr (hall x (by simp))
          have hrest := ih (fun z hz => hall z (List.mem_cons_of_mem _ hz))
          simp only [joinSep]
          rw [List.count_append, h0, List.count_cons]
          have hcs : (sep == c) = false := by
            simpa using fun hh => hne hh.symm
          simp [hrest, hcs]

theorem dictLookup_eraseP_ne (k k' : List Char) (hne : k ≠ k') :
    ∀ j : PyDict,
      dictLookup (j.eraseP (fun e => e.1 = k')) k = dictLookup j k := by
  intro j
  induction j with
  | nil => rfl
  | cons e es ih =>
      rw [List.eraseP_cons]
      by_cases h1 : e.1 = k'
      · rw [decide_eq_true h1, Bool.cond_true]
        have h2 : ¬ e.1 = k := by
          intro hh
          exact hne (hh ▸ h1)
        simp [dictLookup, List.find?_cons, h2]
      · rw [decide_eq_false h1, Bool.cond_false]
        by_cases h2 : e.1 = k
        · simp [dictLookup, List.find?_cons, h2]
        · simp only [dictLookup, List.find?_cons] at ih ⊢
          rw [decide_eq_false h2]
          exact ih

theorem dictPop_lookup_ne (j : PyDict) (k k' : List Char) (hne : k ≠ k') :
    dictLookup (dictPop j k').2 k = dictLookup j k :=
  dictLookup_eraseP_ne k k' hne j

theorem rowOf_shape (j : PyDict) (row : List PyVal) (h : rowOf j = some row) :
    row.length = 14
    ∧ row.get? 0 = some (dictPop j ("location".data)).1
    ∧ row.get? 1
      = some (dictPop (dictPop j ("location".data)).2 ("value".data)).1
    ∧ (∃ dv u,
        dictLookup (dictPop (dictPop (dictPop (dictPop (dictPop (dictPop
            (dictPop j ("location".data)).2 ("value".data)).2 ("unit".data)).2
            ("parameter".data)).2 ("country".data)).2 ("city".data)).2
            ("sourceName".data)).2 ("date".data) = some dv
        ∧ pyIndex dv ("utc".data) = some u
        ∧ row.get? 8 = some u) := by
  simp only [rowOf] at h
  split at h
  · exact absurd h (by simp)
  · rename_i dateval hdv
    split at h
    · exact absurd h (by simp)
    · rename_i date hdate
      split at h
      · exact absurd h (by simp)
      · rename_i avpd_unit avpd_value havpd
        split at h
        · exact absurd h (by simp)
        · rename_i copt j12 hcc
          cases Option.some.inj h
          exact ⟨ rfl, rfl, rfl, dateval, date, hdv, hdate, rfl⟩

theorem dictLookup_isSome_of_any (fs : PyDict) (k : List Char)
    (h : fs.any (fun e => e.1 = k) = true) :
    ∃ v, dictLookup fs k = some v := by
  induction fs with
  | nil => simp at h
  | cons e es ih =>
      by_cases h1 : e.1 = k
      · exact ⟨ e.2, by simp [dictLookup, List.find?_cons, h1]⟩
      · have h2 : es.any (fun e => e.1 = k) = true := by
          rcases List.any_eq_true.mp h with ⟨ x, hx, hxk⟩
          rcases List.mem_cons.mp hx with rfl | hx
          · exact absurd (of_decide_eq_true hxk) h1
          · exact List.any_eq_true.mpr ⟨ x, hx, hxk⟩
        obtain ⟨ v, hv⟩ := ih h2
        refine ⟨ v, ?_⟩
        simp only [dictLookup, List.find?_cons, decide_eq_false h1] at hv ⊢
        exact hv

theorem rowOf_total (j : PyDict)
    (hdate : ∃ d u, dictLookup j ("date".data) = some (.pdict d)
      ∧ dictLookup d ("utc".data) = some u)
    (havpd : dictLookup j ("averagingPeriod".data) = none
      ∨ dictLookup j ("averagingPeriod".data) = some .pnone
      ∨ ∃ fs, dictLookup j ("averagingPeriod".data) = some (.pdict fs))
    (hcoords : dictLookup j ("coordinates".data) = none
      ∨ ∃ fs, dictLookup j ("coordinates".data) = some (.pdict fs)) :
    ∃ row, rowOf j = some row := by
  obtain ⟨ d, u, hd, hu⟩ := hdate
  have hd7 : dictLookup (dictPop (dictPop (dictPop (dictPop (dictPop (dictPop (dictPop j ("location".data)).2 ("value".data)).2 ("unit".data)).2 ("parameter".data)).2 ("country".data)).2 ("city".data)).2 ("sourceName".data)).2 ("date".data) = some (.pdict d) := by
    rw [dictPop_lookup_ne _ _ _ (by decide)]
    rw [dictPop_lookup_ne _ _ _ (by decide)]
    rw [dictPop_lookup_ne _ _ _ (by decide)]
    rw [dictPop_lookup_ne _ _ _ (by decide)]
    rw [dictPop_lookup_ne _ _ _ (by decide)]
    rw [dictPop_lookup_ne _ _ _ (by decide)]
    rw [dictPop_lookup_ne _ _ _ (by decide)]
    exact hd
  have hpy : pyIndex (PyVal.pdict d) ("utc".data) = some u := by
    simpa [pyIndex] using hu
  have hav10 : dictLookup (dictPop (dictPop (dictPop (dictPop (dictPop (dictPop (dictPop (dictPop (dictPop (dictPop j ("location".data)).2 ("value".data)).2 ("unit".data)).2 ("parameter".data)).2 ("country".data)).2 ("city".data)).2 ("sourceName".data)).2 ("date".data)).2 ("sourceType".data)).2 ("mobile".data)).2 ("averagingPeriod".data)
      = dictLookup j ("averagingPeriod".data) := by
    rw [dictPop_lookup_ne _ _ _ (by decide)]
    rw [dictPop_lookup_ne _ _ _ (by decide)]
    rw [dictPop_lookup_ne _ _ _ (by decide)]
    rw [dictPop_lookup_ne _ _ _ (by decide)]
    rw [dictPop_lookup_ne _ _ _ (by decide)]
    rw [dictPop_lookup_ne _ _ _ (by decide)]
    rw [dictPop_lookup_ne _ _ _ (by decide)]
    rw [dictPop_lookup_ne _ _ _ (by decide)]
    rw [dictPop_lookup_ne _ _ _ (by decide)]
    rw [dictPop_lookup_ne _ _ _ (by decide)]
  have hc11 : dictLookup (dictPop (dictPop (dictPop (dictPop (dictPop (dictPop (dictPop (dictPop (dictPop (dictPop (dictPop j ("location".data)).2 ("value".data)).2 ("unit".data)).2 ("parameter".data)).2 ("country".data)).2 ("city".data)).2 ("sourceName".data)).2 ("date".data)).2 ("sourceType".data)).2 ("mobile".data)).2 ("averagingPeriod".data)).2 ("coordinates".data)
      = dictLookup j ("coordinates".data) := by
    rw [dictPop_lookup_ne _ _ _ (by decide)]
    rw [dictPop_lookup_ne _ _ _ (by decide)]
    rw [dictPop_lookup_ne _ _ _ (by decide)]
    rw [dictPop_lookup_ne _ _ _ (by decide)]
    rw [dictPop_lookup_ne _ _ _ (by decide)]
    rw [dictPop_lookup_ne _ _ _ (by decide)]
    rw [dictPop_lookup_ne _ _ _ (by decide)]
    rw [dictPop_lookup_ne _ _ _ (by decide)]
    rw [dictPop_lookup_ne _ _ _ (by decide)]
    rw [dictPop_lookup_ne _ _ _ (by decide)]
    rw [dictPop_lookup_ne _ _ _ (by decide)]
  have hpop1 : (dictPop (dictPop (dictPop (dictPop (dictPop (dictPop (dictPop (dictPop (dictPop (dictPop (dictPop j ("location".data)).2 ("value".data)).2 ("unit".data)).2 ("parameter".data)).2 ("country".data)).2 ("city".data)).2 ("sourceName".data)).2 ("date".data)).2 ("sourceType".data)).2 ("mobile".data)).2 ("averagingPeriod".data)).1
      = (dictLookup j ("averagingPeriod".data)).getD .pnone := by
    rw [show (dictPop (dictPop (dictPop (dictPop (dictPop (dictPop (dictPop (dictPop (dictPop (dictPop (dictPop j ("location".data)).2 ("value".data)).2 ("unit".data)).2 ("parameter".data)).2 ("country".data)).2 ("city".data)).2 ("sourceName".data)).2 ("date".data)).2 ("sourceType".data)).2 ("mobile".data)).2 ("averagingPeriod".data)).1
        = (dictLookup (dictPop (dictPop (dictPop (dictPop (dictPop (dictPop (dictPop (dictPop (dictPop (dictPop j ("location".data)).2 ("value".data)).2 ("unit".data)).2 ("parameter".data)).2 ("country".data)).2 ("city".data)).2 ("sourceName".data)).2 ("date".data)).2 ("sourceType".data)).2 ("mobile".data)).2 ("averagingPeriod".data)).getD .pnone from rfl,
      hav10]
  have hava : ∃ au av,
      avpdSplit ((dictPop (dictPop (dictPop (dictPop (dictPop (dictPop (dictPop (dictPop (dictPop (dictPop (dictPop j ("location".data)).2 ("value".data)).2 ("unit".data)).2 ("parameter".data)).2 ("country".data)).2 ("city".data)).2 ("sourceName".data)).2 ("date".data)).2 ("sourceType".data)).2 ("mobile".data)).2 ("averagingPeriod".data)).1) = some (au, av) := by
    rcases havpd with hn | hpn | ⟨ fs, hfs⟩
    · exact ⟨ .pnone, .pnone, by rw [hpop1, hn]; rfl⟩
    · exact ⟨ .pnone, .pnone, by rw [hpop1, hpn]; rfl⟩
    · exact ⟨ _, _, by rw [hpop1, hfs]; rfl⟩
  obtain ⟨ au, av, havaq⟩ := hava
  have hccx : ∃ copt j12, coordsCheck (dictPop (dictPop (dictPop (dictPop (dictPop (dictPop (dictPop (dictPop (dictPop (dictPop (dictPop j ("location".data)).2 ("value".data)).2 ("unit".data)).2 ("parameter".data)).2 ("country".data)).2 ("city".data)).2 ("sourceName".data)).2 ("date".data)).2 ("sourceType".data)).2 ("mobile".data)).2 ("averagingPeriod".data)).2 = some (copt, j12) := by
    rcases hcoords with hn | ⟨ fs, hfs⟩
    · refine ⟨ none, (dictPop (dictPop (dictPop (dictPop (dictPop (dictPop (dictPop (dictPop (dictPop (dictPop (dictPop j ("location".data)).2 ("value".data)).2 ("unit".data)).2 ("parameter".data)).2 ("country".data)).2 ("city".data)).2 ("sourceName".data)).2 ("date".data)).2 ("sourceType".data)).2 ("mobile".data)).2 ("averagingPeriod".data)).2, ?_⟩
      unfold coordsCheck
      rw [hc11, hn]
    · by_cases hlon : (fs.any fun e => e.1 = ("longitude".data)) = true
      · by_cases hlat : (fs.any fun e => e.1 = ("latitude".data)) = true
        · obtain ⟨ lv, hlv⟩ := dictLookup_isSome_of_any fs _ hlon
          obtain ⟨ la, hla⟩ := dictLookup_isSome_of_any fs _ hlat
          refine ⟨ some (lv, la),
            ((dictPop (dictPop (dictPop (dictPop (dictPop (dictPop (dictPop (dictPop (dictPop (dictPop (dictPop j ("location".data)).2 ("value".data)).2 ("unit".data)).2 ("parameter".data)).2 ("country".data)).2 ("city".data)).2 ("sourceName".data)).2 ("date".data)).2 ("sourceType".data)).2 ("mobile".data)).2 ("averagingPeriod".data)).2).eraseP (fun e => e.1 = ("coordinates".data)), ?_⟩
          unfold coordsCheck
          rw [hc11, hfs]
          simp only [pyContains, pyIndex, hlon, hlat, hlv, hla]
        · rw [Bool.not_eq_true] at hlat
          refine ⟨ none, (dictPop (dictPop (dictPop (dictPop (dictPop (dictPop (dictPop (dictPop (dictPop (dictPop (dictPop j ("location".data)).2 ("value".data)).2 ("unit".data)).2 ("parameter".data)).2 ("country".data)).2 ("city".data)).2 ("sourceName".data)).2 ("date".data)).2 ("sourceType".data)).2 ("mobile".data)).2 ("averagingPeriod".data)).2, ?_⟩
          unfold coordsCheck
          rw [hc11, hfs]
          simp only [pyContains, pyIndex, hlon, hlat]
      · rw [Bool.not_eq_true] at hlon
        refine ⟨ none, (dictPop (dictPop (dictPop (dictPop (dictPop (dictPop (dictPop (dictPop (dictPop (dictPop (dictPop j ("location".data)).2 ("value".data)).2 ("unit".data)).2 ("parameter".data)).2 ("country".data)).2 ("city".data)).2 ("sourceName".data)).2 ("date".data)).2 ("sourceType".data)).2 ("mobile".data)).2 ("averagingPeriod".data)).2, ?_⟩
        unfold coordsCheck
        rw [hc11, hfs]
        simp only [pyContains, pyIndex, hlon]
  obtain ⟨ copt, j12, hccq⟩ := hccx
  exact ⟨ _, by simp only [rowOf, hd7, hpy, havaq, hccq]; rfl⟩

/-- C8, amended: for every input record — a dict whose `date` entry is a dict
with a `utc` key, whose `averagingPeriod` entry, if present, is a dict or
`None`, and whose `coordinates` entry, if present, is a dict — `parse_json`
returns a single line of exactly 14 tab-separated fields terminated by
exactly one newline, in the fixed order location, value, unit, parameter,
country, city, data, source_name, date, coords, source_type, mobile,
avpd_unit, avpd_value, where `None` renders as `\N` and no rendered field
contains a raw tab or newline (newlines become backslash-n, tabs become
spaces); for other records (e.g. an int `averagingPeriod`) it raises. -/
theorem parse_json_line_shape (j : PyDict)
    (hdate : ∃ d u, dictLookup j ("date".data) = some (.pdict d)
      ∧ dictLookup d ("utc".data) = some u)
    (havpd : dictLookup j ("averagingPeriod".data) = none
      ∨ dictLookup j ("averagingPeriod".data) = some .pnone
      ∨ ∃ fs, dictLookup j ("averagingPeriod".data) = some (.pdict fs))
    (hcoords : dictLookup j ("coordinates".data) = none
      ∨ ∃ fs, dictLookup j ("coordinates".data) = some (.pdict fs)) :
    ∃ row : List PyVal,
      rowOf j = some row
      ∧ row.length = 14
      ∧ parse_json j = some (joinSep '\t' (row.map clean_csv_value) ++ ['\n'])
      ∧ (∀ v ∈ row, '\t' ∉ clean_csv_value v ∧ '\n' ∉ clean_csv_value v)
      ∧ clean_csv_value .pnone = ['\\', 'N']
      ∧ (joinSep '\t' (row.map clean_csv_value) ++ ['\n']).count '\t' = 13
      ∧ (joinSep '\t' (row.map clean_csv_value) ++ ['\n']).count '\n' = 1
      ∧ (joinSep '\t' (row.map clean_csv_value) ++ ['\n']).getLast? = some '\n'
      ∧ row.get? 0 = some (dictPop j ("location".data)).1
      ∧ row.get? 1
        = some (dictPop (dictPop j ("location".data)).2 ("value".data)).1
      ∧ (∃ dv u,
          dictLookup (dictPop (dictPop (dictPop (dictPop (dictPop (dictPop
              (dictPop j ("location".data)).2 ("value".data)).2 ("unit".data)).2
              ("parameter".data)).2 ("country".data)).2 ("city".data)).2
              ("sourceName".data)).2 ("date".data) = some dv
          ∧ pyIndex dv ("utc".data) = some u
          ∧ row.get? 8 = some u) := by
  obtain ⟨ row, hrow⟩ := rowOf_total j hdate havpd hcoords
  obtain ⟨ hlen, h0, h1, hdatepos⟩ := rowOf_shape j row hrow
  have hnotab : ∀ x ∈ row.map clean_csv_value, '\t' ∉ x := by
    intro x hx
    obtain ⟨ v, _, rfl⟩ := List.mem_map.mp hx
    exact (clean_csv_value_no_tab_newline v).1
  have honl : ∀ x ∈ row.map clean_csv_value, '\n' ∉ x := by
    intro x hx
    obtain ⟨ v, _, rfl⟩ := List.mem_map.mp hx
    exact (clean_csv_value_no_tab_newline v).2
  refine ⟨ row, hrow, hlen, ?_, ?_, rfl, ?_, ?_, ?_, h0, h1, hdatepos⟩
  · simp [parse_json, hrow]
  · intro v _
    exact clean_csv_value_no_tab_newline v
  · rw [List.count_append, count_joinSep_sep '\t' _ hnotab]
    simp [hlen]
  · rw [List.count_append, count_joinSep_other '\t' '\n' (by decide) _ honl]
    simp
  · exact List.getLast?_concat _

/-- Witness for C8: a concrete two-field record satisfies the hypotheses and
parses into a 14-field line. -/
theorem parse_json_line_shape_witness :
    ∃ row, rowOf
        [ (("location".data), PyVal.pstr ("Garden".data))
        , (("date".data),
            PyVal.pdict [(("utc".data), PyVal.pstr ("2021".data))])]
      = some row ∧ row.length = 14 := by
  obtain ⟨ row, hrow, hlen, _⟩ := parse_json_line_shape
    [ (("location".data), PyVal.pstr ("Garden".data))
    , (("date".data), PyVal.pdict [(("utc".data), PyVal.pstr ("2021".data))])]
    ⟨ _, _, rfl, rfl⟩ (Or.inl rfl) (Or.inl rfl)
  exact ⟨ row, hrow, hlen⟩

/-- Counterexample to C8 as stated: two records whose `date` entry has a
`utc` key on which `parse_json` raises instead of returning a line — an int
`averagingPeriod` (whose `.pop` raises `AttributeError`), and a string
`coordinates` that passes the substring membership tests but cannot be
indexed (`TypeError`). -/
theorem parse_json_raises_counterexample :
    dictLookup
      [ (("date".data), PyVal.pdict [(("utc".data), PyVal.pstr ("2021".data))])
      , (("averagingPeriod".data), PyVal.pint 1)] ("date".data)
      = some (PyVal.pdict [(("utc".data), PyVal.pstr ("2021".data))])
    ∧ parse_json
      [ (("date".data), PyVal.pdict [(("utc".data), PyVal.pstr ("2021".data))])
      , (("averagingPeriod".data), PyVal.pint 1)] = none
    ∧ parse_json
      [ (("date".data), PyVal.pdict [(("utc".data), PyVal.pstr ("2021".data))])
      , (("coordinates".data), PyVal.pstr ("longitude latitude".data))]
      = none := by
  refine ⟨ rfl, rfl, ?_⟩
  rfl
